import Mathlib

/-!
Verification of the report-generation core of the `ibkr-toolkit` repository.

The development shallowly embeds `src/ibkr_tax/parsers/data_parser.py` and
`src/ibkr_tax/api/flex_query.py` in Lean 4:

* Nested statement documents (the result of XML-to-dict conversion) are
  modelled by the inductive type `PyVal` mirroring Python's scalar / dict /
  list values.  Python operations that can raise (`.get` on a non-mapping,
  string operations on non-strings, tuple unpacking of a split) are modelled
  in the `Except PyErr` monad.
* Machine floats are modelled as exact rationals (`ℚ`); Python's `round`
  (half-to-even) is modelled exactly on rationals; `float('nan')` arising as
  the mean of an empty column is modelled by `Option ℚ` with `none` for NaN.
* Numeric-string coercion (`float(s)`) is modelled for the sign + digits +
  optional fractional part grammar used by the statement format.
* Record field values in the statement format are textual; the embedding
  raises a type error where a non-textual value would flow into a string
  operation or into a stored text column.
* The report-polling loop is modelled as a deterministic state machine over
  an abstract stream of remote responses, counting network calls, flat-delay
  sleeps and exponential-backoff sleeps.
-/

/-- A Python value as produced by XML-to-dict conversion of a statement. -/
inductive PyVal where
  | none : PyVal
  | str : String → PyVal
  | num : ℚ → PyVal
  | dict : List (String × PyVal) → PyVal
  | list : List PyVal → PyVal

/-- Errors raised by the modelled Python operations. -/
inductive PyErr where
  | attrError : PyErr
  | typeError : PyErr
  | valueError : PyErr
deriving DecidableEq, Repr

/-- First-match association lookup in a Python dict (keys are unique). -/
def dictGet : List (String × PyVal) → String → Option PyVal
  | [], _ => Option.none
  | (k, v) :: rest, key => if k == key then some v else dictGet rest key

/-- `d.get(key, default)`; raises `AttributeError` on non-mappings
(`None.get`, `"x".get`, `5 .get` all raise in Python). -/
def PyVal.get (v : PyVal) (key : String) (dflt : PyVal) : Except PyErr PyVal :=
  match v with
  | .dict kvs => .ok ((dictGet kvs key).getD dflt)
  | _ => .error .attrError

/-- Python truthiness. -/
def PyVal.truthy : PyVal → Bool
  | .none => false
  | .str s => s ≠ ""
  | .num q => q ≠ 0
  | .dict kvs => !kvs.isEmpty
  | .list xs => !xs.isEmpty

/-- `for x in v`: lists yield elements, dicts yield keys, strings yield
one-character strings; `None` and numbers raise `TypeError`. -/
def pyIter : PyVal → Except PyErr (List PyVal)
  | .list xs => .ok xs
  | .dict kvs => .ok (kvs.map (fun kv => PyVal.str kv.1))
  | .str s => .ok (s.data.map (fun c => PyVal.str (String.mk [c])))
  | _ => .error .typeError

/-- A value flowing into a string operation or a stored text column must be
textual. -/
def asStr : PyVal → Except PyErr String
  | .str s => .ok s
  | _ => .error .typeError

/-- `v == s` for a string literal `s`: total, false on non-strings. -/
def PyVal.isStrEq (v : PyVal) (s : String) : Bool :=
  match v with
  | .str t => t == s
  | _ => false

/-- Does the character list start with the given pattern? -/
def startsWithChars : List Char → List Char → Bool
  | _, [] => true
  | [], _ :: _ => false
  | a :: as, b :: bs => a == b && startsWithChars as bs

/-- Substring test on character lists. -/
def containsChars : List Char → List Char → Bool
  | hay, needle =>
    startsWithChars hay needle ||
      match hay with
      | [] => false
      | _ :: rest => containsChars rest needle

/-- Python's `needle in hay` on strings. -/
def containsSub (hay needle : String) : Bool :=
  containsChars hay.data needle.data

/-- Lexicographic comparison of character lists by code point. -/
def strLtChars : List Char → List Char → Bool
  | [], [] => false
  | [], _ :: _ => true
  | _ :: _, [] => false
  | a :: as, b :: bs =>
    if a.toNat < b.toNat then true
    else if b.toNat < a.toNat then false
    else strLtChars as bs

/-- Python string `<` (code-point lexicographic), as used by `sort` and the
pandas column `min`/`max`. -/
def strLtB (a b : String) : Bool := strLtChars a.data b.data

/-- Splitter on a separator character (Python `s.split(";")`). -/
def splitOnCharAux (sep : Char) : List Char → List Char → List (List Char)
  | [], acc => [acc.reverse]
  | c :: rest, acc =>
    if c == sep then acc.reverse :: splitOnCharAux sep rest []
    else splitOnCharAux sep rest (c :: acc)

/-- Python `s.split(sep)` for a one-character separator; `"".split` yields
`[""]`. -/
def pySplit (s : String) (sep : Char) : List String :=
  (splitOnCharAux sep s.data []).map String.mk

/-- Python `s.upper()` on the ASCII field values of the statement format. -/
def upperStr (s : String) : String := String.mk (s.data.map Char.toUpper)

/-- Python's `needle in v`: substring test on strings, membership on lists,
key membership on dicts; `TypeError` on `None` and numbers. -/
def pyInStr (needle : String) (v : PyVal) : Except PyErr Bool :=
  match v with
  | .str s => .ok (containsSub s needle)
  | .list xs => .ok (xs.any (fun x => x.isStrEq needle))
  | .dict kvs => .ok (kvs.any (fun kv => kv.1 == needle))
  | _ => .error .typeError

/-- `isOk` for the modelled Python computations. -/
def exOk {α : Type} : Except PyErr α → Bool
  | .ok _ => true
  | .error _ => false

/-- Effectful map over a list, stopping at the first raised error
(Python `for` loop building a row list). -/
def exMapM {α β : Type} (f : α → Except PyErr β) : List α → Except PyErr (List β)
  | [] => .ok []
  | x :: xs => do
    let y ← f x
    let ys ← exMapM f xs
    pure (y :: ys)

/-- Fetch a stored text field: `rec.get(key, "")` followed by the textual
requirement. -/
def fieldStr (rec : PyVal) (key : String) : Except PyErr String := do
  let v ← rec.get key (.str "")
  asStr v

/-- All characters are decimal digits. -/
def allDigits (cs : List Char) : Bool := cs.all Char.isDigit

/-- Numeric value of a digit string. -/
def natOfDigits (cs : List Char) : ℕ :=
  cs.foldl (fun a c => a * 10 + (c.toNat - 48)) 0

/-- Unsigned decimal literal: digits with an optional fractional part
(`"12"`, `"12.5"`, `"12."`, `".5"`). -/
def parseUnsignedDec (cs : List Char) : Option ℚ :=
  match cs.span (fun c => c != '.') with
  | (ip, []) =>
    if !ip.isEmpty && allDigits ip then some ((natOfDigits ip : ℚ)) else Option.none
  | (ip, _ :: fp) =>
    if allDigits ip && allDigits fp && (!ip.isEmpty || !fp.isEmpty) then
      some ((natOfDigits ip : ℚ) + (natOfDigits fp : ℚ) / ((10 : ℚ) ^ fp.length))
    else Option.none

/-- Python `float(s)` on the decimal grammar used by the statement format
(optional sign, digits, optional fractional part). -/
def parseDecimal (s : String) : Option ℚ :=
  match s.data with
  | '+' :: rest => parseUnsignedDec rest
  | '-' :: rest => (parseUnsignedDec rest).map Neg.neg
  | cs => parseUnsignedDec cs

/-- `safe_float` (data_parser.py, lines 14-30): tolerant scalar coercion.
`None` and `""` yield the default; a failing `float(...)` conversion
(`ValueError` / `TypeError`) yields the default silently. -/
def safe_float (value : PyVal) (dflt : ℚ) : ℚ :=
  match value with
  | .none => dflt
  | .str s => if s = "" then dflt else (parseDecimal s).getD dflt
  | .num q => q
  | .dict _ => dflt
  | .list _ => dflt

/-- Round half to even to an integer (Python `round` on exact values). -/
def bankersRound (q : ℚ) : ℤ :=
  let f := ⌊q⌋
  let r := q - f
  if r < 1 / 2 then f
  else if r > 1 / 2 then f + 1
  else if 2 ∣ f then f else f + 1

/-- Python `round(q, 2)`. -/
def round2 (q : ℚ) : ℚ := (bankersRound (q * 100) : ℚ) / 100

/-- Python `round(q, 4)`. -/
def round4 (q : ℚ) : ℚ := (bankersRound (q * 10000) : ℚ) / 10000

/-- One row of the Trades table (one closed lot).  The source column
`"Realized P&L"` is spelt `RealizedPnl` (Lean identifiers cannot contain
`&` or spaces). -/
structure TradeRow where
  Date : String
  Time : String
  Symbol : String
  Description : String
  Quantity : ℚ
  Price : ℚ
  Amount : ℚ
  Cost : ℚ
  Commission : ℚ
  RealizedPnl : ℚ
  Buy_Sell : String
  Currency : String
  Asset_Category : String
  Open_DateTime : String
deriving DecidableEq, Repr

/-- One row of the Dividends table.  The source column `"Type"` is spelt
`TxnType` (`Type` is reserved in Lean). -/
structure DivRow where
  Date : String
  Symbol : String
  Description : String
  Amount : ℚ
  Currency : String
  TxnType : String
deriving DecidableEq, Repr

/-- One row of the Withholding-tax table.  The source column `"Type"` is
spelt `TxnType`. -/
structure TaxRow where
  Date : String
  Symbol : String
  Description : String
  Amount : ℚ
  Currency : String
  TxnType : String
deriving DecidableEq, Repr

/-- One row of the Deposits/Withdrawals table. -/
structure DWRow where
  Date : String
  Time : String
  Description : String
  Amount : ℚ
  Currency : String
  FX_Rate_To_Base : ℚ
  Amount_Base_Currency : ℚ
  Transaction_Type : String
deriving DecidableEq, Repr

/-- One row of the Open-positions table. -/
structure PosRow where
  Symbol : String
  Description : String
  Quantity : ℚ
  Mark_Price : ℚ
  Position_Value : ℚ
  Cost_Basis : ℚ
  UnrealizedPnl : ℚ
  Currency : String
  Asset_Category : String
deriving DecidableEq, Repr

/-- The cash-report snapshot (`parse_cash_report` result when non-empty). -/
structure CashReport where
  Starting_Cash : ℚ
  Ending_Cash : ℚ
  Net_Trades_Sales : ℚ
  Net_Trades_Purchases : ℚ
  Deposit_Withdrawals : ℚ
  Deposits : ℚ
  Withdrawals : ℚ
  Dividends : ℚ
  Commissions : ℚ
  Currency : String
deriving DecidableEq, Repr

/-- The "single item returns dict" normalization applied by every parse
function: a bare mapping becomes a one-element sequence. -/
def normSingleton (v : PyVal) : PyVal :=
  match v with
  | .dict kvs => .list [.dict kvs]
  | x => x

/-- The shared sub-collection access pattern: singleton normalization, the
emptiness/falsiness check returning the empty row list, then iteration. -/
def collectRecords (v : PyVal) : Except PyErr (List PyVal) :=
  let c := normSingleton v
  if !c.truthy then .ok []
  else pyIter c

/-- One lot record of `parse_trades` (data_parser.py, lines 61-83). -/
def parseLot (lot : PyVal) : Except PyErr TradeRow := do
  let tradeDate ← lot.get "@tradeDate" .none
  let dateTimeOrNone ← lot.get "@dateTime" .none
  let dateTimeDflt ← lot.get "@dateTime" (.str "")
  let date ←
    if tradeDate.truthy || dateTimeOrNone.truthy then do
      let v ← lot.get "@tradeDate" dateTimeDflt
      let s ← asStr v
      pure ((pySplit s ';').headD "")
    else pure ""
  let dts ← asStr dateTimeDflt
  let time := if containsSub dts ";" then (pySplit dts ';').getD 1 "" else ""
  let symbol ← fieldStr lot "@symbol"
  let description ← fieldStr lot "@description"
  let quantity := |safe_float (← lot.get "@quantity" .none) 0|
  let price := safe_float (← lot.get "@tradePrice" .none) 0
  let amount := safe_float (← lot.get "@proceeds" .none) 0
  let cost := safe_float (← lot.get "@cost" .none) 0
  let pnl := safe_float (← lot.get "@fifoPnlRealized" .none) 0
  let buySell ← fieldStr lot "@buySell"
  let currency ← fieldStr lot "@currency"
  let assetCat ← fieldStr lot "@assetCategory"
  let openDT ← fieldStr lot "@openDateTime"
  pure { Date := date, Time := time, Symbol := symbol, Description := description,
         Quantity := quantity, Price := price, Amount := amount, Cost := cost,
         Commission := 0, RealizedPnl := pnl, Buy_Sell := buySell,
         Currency := currency, Asset_Category := assetCat, Open_DateTime := openDT }

/-- `parse_trades` (data_parser.py, lines 33-87): reads the "Trades"
section's "Lot" sub-collection; a missing or falsy section and an empty or
falsy sub-collection yield the empty table. -/
def parse_trades (flex_data : PyVal) : Except PyErr (List TradeRow) := do
  let trades_section ← flex_data.get "Trades" .none
  if !trades_section.truthy then return []
  let lots0 ← trades_section.get "Lot" (.list [])
  let items ← collectRecords lots0
  exMapM parseLot items

/-- One cash transaction of `parse_dividends` (data_parser.py, lines
116-132): selected iff `"Dividend"` occurs in the type or the description
(Python `or` short-circuits, so the second test only runs when the first is
false). -/
def parseDivTxn (txn : PyVal) : Except PyErr (Option DivRow) := do
  let txn_type ← txn.get "@type" (.str "")
  let description ← txn.get "@description" (.str "")
  let c1 ← pyInStr "Dividend" txn_type
  let cond ← if c1 then pure true else pyInStr "Dividend" description
  if cond then do
    let rdDflt ← txn.get "@reportDate" (.str "")
    let dtv ← txn.get "@dateTime" rdDflt
    let dts ← asStr dtv
    let date := if containsSub dts ";" then (pySplit dts ';').headD "" else dts
    let symbol ← fieldStr txn "@symbol"
    let descS ← asStr description
    let amount := safe_float (← txn.get "@amount" .none) 0
    let currency ← fieldStr txn "@currency"
    let typeS ← asStr txn_type
    pure (some { Date := date, Symbol := symbol, Description := descS,
                 Amount := amount, Currency := currency, TxnType := typeS })
  else pure Option.none

/-- `parse_dividends` (data_parser.py, lines 90-136): filters the
"CashTransactions" → "CashTransaction" collection for dividend rows. -/
def parse_dividends (flex_data : PyVal) : Except PyErr (List DivRow) := do
  let cash_section ← flex_data.get "CashTransactions" .none
  if !cash_section.truthy then return []
  let ct0 ← cash_section.get "CashTransaction" (.list [])
  let items ← collectRecords ct0
  let rows ← exMapM parseDivTxn items
  pure (rows.filterMap id)

/-- One cash transaction of the withholding-tax fallback scan
(data_parser.py, lines 164-177): selected iff the type contains
`"Withholding"`, or upper-cased contains `"TAX"`. -/
def parseTaxTxnCash (txn : PyVal) : Except PyErr (Option TaxRow) := do
  let txn_type ← txn.get "@type" (.str "")
  let c1 ← pyInStr "Withholding" txn_type
  let cond ←
    if c1 then pure true
    else do
      let s ← asStr txn_type
      pure (containsSub (upperStr s) "TAX")
  if cond then do
    let rdDflt ← txn.get "@reportDate" (.str "")
    let dtv ← txn.get "@dateTime" rdDflt
    let dts ← asStr dtv
    let date := if containsSub dts ";" then (pySplit dts ';').headD "" else dts
    let symbol ← fieldStr txn "@symbol"
    let descS ← fieldStr txn "@description"
    let amount := |safe_float (← txn.get "@amount" .none) 0|
    let currency ← fieldStr txn "@currency"
    let typeS ← asStr txn_type
    pure (some { Date := date, Symbol := symbol, Description := descS,
                 Amount := amount, Currency := currency, TxnType := typeS })
  else pure Option.none

/-- One record of the dedicated withholding-tax section (data_parser.py,
lines 191-201). -/
def parseTaxRecord (tax : PyVal) : Except PyErr TaxRow := do
  let date ← fieldStr tax "@date"
  let symbol ← fieldStr tax "@symbol"
  let descS ← fieldStr tax "@description"
  let amount := |safe_float (← tax.get "@amount" .none) 0|
  let currency ← fieldStr tax "@currency"
  let code ← fieldStr tax "@code"
  pure { Date := date, Symbol := symbol, Description := descS,
         Amount := amount, Currency := currency, TxnType := code }

/-- The cash-transaction fallback scan of `parse_withholding_tax`
(data_parser.py, lines 152-185).  Note: unlike the other cash-transaction
parsers it iterates the normalized collection without an emptiness check. -/
def wtFallback (flex_data : PyVal) : Except PyErr (List TaxRow) := do
  let cash_section ← flex_data.get "CashTransactions" .none
  if !cash_section.truthy then return []
  let ct0 ← cash_section.get "CashTransaction" (.list [])
  let cash_txns := normSingleton ct0
  let items ← pyIter cash_txns
  let rows ← exMapM parseTaxTxnCash items
  pure (rows.filterMap id)

/-- `parse_withholding_tax` (data_parser.py, lines 139-205): the dedicated
"WithholdingTax" → "Tax" section wins when truthy (note: its emptiness is
tested *before* the singleton normalization); otherwise the cash
transactions are scanned as a fallback. -/
def parse_withholding_tax (flex_data : PyVal) : Except PyErr (List TaxRow) := do
  let wt ← flex_data.get "WithholdingTax" (.dict [])
  let taxes0 ← wt.get "Tax" (.list [])
  if !taxes0.truthy then wtFallback flex_data
  else do
    let taxes := normSingleton taxes0
    let items ← pyIter taxes
    exMapM parseTaxRecord items

/-- One cash transaction of `parse_deposits_withdrawals` (data_parser.py,
lines 232-265): selected iff the type equals `"Deposits/Withdrawals"`
exactly.  The two-way unpack `date_part, time_part = date_time.split(";")`
raises `ValueError` when the split has more than two parts. -/
def parseDWTxn (txn : PyVal) : Except PyErr (Option DWRow) := do
  let txn_type ← txn.get "@type" (.str "")
  if txn_type.isStrEq "Deposits/Withdrawals" then do
    let rdDflt ← txn.get "@reportDate" (.str "")
    let dtv ← txn.get "@dateTime" rdDflt
    let amount := safe_float (← txn.get "@amount" .none) 0
    let currency ← fieldStr txn "@currency"
    let fx_rate := safe_float (← txn.get "@fxRateToBase" .none) 1
    let amount_base := amount * fx_rate
    let dts ← asStr dtv
    let (date_part, time_formatted) ←
      if containsSub dts ";" then
        let parts := pySplit dts ';'
        if parts.length == 2 then
          let time_part := parts.getD 1 ""
          let tf :=
            if time_part.length == 6 then
              let tp := time_part.data
              String.mk (tp.take 2) ++ ":" ++ String.mk ((tp.drop 2).take 2)
                ++ ":" ++ String.mk (tp.drop 4)
            else time_part
          pure (parts.headD "", tf)
        else Except.error PyErr.valueError
      else pure (dts, "")
    let descS ← fieldStr txn "@description"
    pure (some { Date := date_part, Time := time_formatted, Description := descS,
                 Amount := amount, Currency := currency,
                 FX_Rate_To_Base := fx_rate, Amount_Base_Currency := amount_base,
                 Transaction_Type := if amount_base > 0 then "Deposit" else "Withdrawal" })
  else pure Option.none

/-- `parse_deposits_withdrawals` (data_parser.py, lines 208-269). -/
def parse_deposits_withdrawals (flex_data : PyVal) : Except PyErr (List DWRow) := do
  let cash_section ← flex_data.get "CashTransactions" .none
  if !cash_section.truthy then return []
  let ct0 ← cash_section.get "CashTransaction" (.list [])
  let items ← collectRecords ct0
  let rows ← exMapM parseDWTxn items
  pure (rows.filterMap id)

/-- One record of `parse_open_positions` (data_parser.py, lines 462-475). -/
def parsePosition (pos : PyVal) : Except PyErr PosRow := do
  let symbol ← fieldStr pos "@symbol"
  let descS ← fieldStr pos "@description"
  let quantity := safe_float (← pos.get "@quantity" .none) 0
  let markPrice := safe_float (← pos.get "@markPrice" .none) 0
  let posValue := safe_float (← pos.get "@positionValue" .none) 0
  let costBasis := safe_float (← pos.get "@costBasisMoney" .none) 0
  let fxPnl := safe_float (← pos.get "@fxPnl" .none) 0
  let currency ← fieldStr pos "@currency"
  let assetCat ← fieldStr pos "@assetCategory"
  pure { Symbol := symbol, Description := descS, Quantity := quantity,
         Mark_Price := markPrice, Position_Value := posValue,
         Cost_Basis := costBasis, UnrealizedPnl := fxPnl,
         Currency := currency, Asset_Category := assetCat }

/-- `parse_open_positions` (data_parser.py, lines 433-479). -/
def parse_open_positions (flex_data : PyVal) : Except PyErr (List PosRow) := do
  let positions_section ← flex_data.get "OpenPositions" .none
  if !positions_section.truthy then return []
  let pos0 ← positions_section.get "OpenPosition" (.list [])
  let items ← collectRecords pos0
  exMapM parsePosition items

/-- Find the entry whose `@currency` equals `"BASE_SUMMARY"` (data_parser.py,
lines 509-512). -/
def findBaseSummary : List PyVal → Except PyErr (Option PyVal)
  | [] => .ok Option.none
  | r :: rest => do
    let v ← r.get "@currency" .none
    if v.isStrEq "BASE_SUMMARY" then pure (some r) else findBaseSummary rest

/-- The snapshot built from the chosen cash-report entry (data_parser.py,
lines 517-531): a falsy entry yields the empty dictionary. -/
def buildCashReport (cd : PyVal) : Except PyErr (Option CashReport) :=
  if !cd.truthy then pure Option.none
  else do
    let startingCash := safe_float (← cd.get "@startingCash" .none) 0
    let endingCash := safe_float (← cd.get "@endingCash" .none) 0
    let netTradesSales := safe_float (← cd.get "@netTradesSales" .none) 0
    let netTradesPurchases := safe_float (← cd.get "@netTradesPurchases" .none) 0
    let depositWithdrawals := safe_float (← cd.get "@depositWithdrawals" .none) 0
    let deposits := safe_float (← cd.get "@deposits" .none) 0
    let withdrawals := safe_float (← cd.get "@withdrawals" .none) 0
    let dividends := safe_float (← cd.get "@dividends" .none) 0
    let commissions := safe_float (← cd.get "@commissions" .none) 0
    let currency ← fieldStr cd "@currency"
    pure (some { Starting_Cash := startingCash, Ending_Cash := endingCash,
                 Net_Trades_Sales := netTradesSales,
                 Net_Trades_Purchases := netTradesPurchases,
                 Deposit_Withdrawals := depositWithdrawals,
                 Deposits := deposits, Withdrawals := withdrawals,
                 Dividends := dividends, Commissions := commissions,
                 Currency := currency })

/-- `parse_cash_report` (data_parser.py, lines 482-537): `none` models the
empty dictionary returned for a missing/empty section or a falsy chosen
entry. -/
def parse_cash_report (flex_data : PyVal) : Except PyErr (Option CashReport) := do
  let sec ← flex_data.get "CashReport" .none
  if !sec.truthy then return Option.none
  let cr0 ← sec.get "CashReportCurrency" (.list [])
  let items ← collectRecords cr0
  let found ← findBaseSummary items
  let cash_data0 := match found with
    | some r => some r
    | Option.none => items.head?
  match cash_data0 with
  | Option.none => pure Option.none
  | some cd => buildCashReport cd

/-- Mean of a column; `none` models the `NaN` produced by the mean of an
empty column. -/
def listMean (xs : List ℚ) : Option ℚ :=
  if xs.isEmpty then Option.none else some (xs.sum / xs.length)

/-- The `Trade_Summary` category.  `Average_Exchange_Rate` is `Option ℚ`,
with `none` for the float `NaN`. -/
structure TradeSummary where
  Total_Trades : ℕ
  USD_Trades : ℕ
  Realized_PnL_USD : ℚ
  Realized_PnL_CNY : ℚ
  Total_Commission_USD : ℚ
  Total_Commission_CNY : ℚ
  Net_PnL_USD : ℚ
  Net_PnL_CNY : ℚ
  Average_Exchange_Rate : Option ℚ
deriving DecidableEq, Repr

/-- The `Dividend_Summary` category. -/
structure DividendSummary where
  Total_Dividends : ℕ
  Total_Amount_USD : ℚ
  Total_Amount_CNY : ℚ
  Average_Exchange_Rate : Option ℚ
deriving DecidableEq, Repr

/-- The `Tax_Summary` category. -/
structure TaxSummary where
  Total_Withholding_Tax_USD : ℚ
  Total_Withholding_Tax_CNY : ℚ
  Average_Exchange_Rate : Option ℚ
deriving DecidableEq, Repr

/-- The `China_Tax_Calculation` category. -/
structure ChinaTaxCalculation where
  Taxable_Income_CNY : ℚ
  Tax_Due_20pct_CNY : ℚ
  Foreign_Tax_Credit_CNY : ℚ
  Tax_Payable_CNY : ℚ
deriving DecidableEq, Repr

/-- The `Account_Summary` category. -/
structure AccountSummary where
  Total_Deposits_Count : ℕ
  Total_Withdrawals_Count : ℕ
  Total_Deposits_Base_Currency : ℚ
  Total_Withdrawals_Base_Currency : ℚ
  Net_Deposits_Base_Currency : ℚ
deriving DecidableEq, Repr

/-- The summary dictionary; an absent key is `none` (category omission is
meaningful downstream). -/
structure Summary where
  Trade_Summary : Option TradeSummary
  Dividend_Summary : Option DividendSummary
  Tax_Summary : Option TaxSummary
  China_Tax_Calculation : Option ChinaTaxCalculation
  Account_Summary : Option AccountSummary
deriving DecidableEq, Repr

/-- The trade-summary block of `calculate_summary` (data_parser.py, lines
299-335).  The exchange-rate oracle is the parameter `getRate`; the guard
`use_dynamic_rates and rate_service` of the source reduces to
`use_dynamic_rates` because the service object is always truthy. -/
def trade_summary_of (getRate : String → ℚ → ℚ) (trades : List TradeRow)
    (use_dynamic_rates : Bool) (default_rate : ℚ) : Option TradeSummary :=
  if trades.isEmpty then Option.none
  else
    let usd_trades := trades.filter (fun t => t.Currency == "USD")
    let total_pnl := (usd_trades.map (fun t => t.RealizedPnl)).sum
    let total_commission := (usd_trades.map (fun t => t.Commission)).sum
    let (total_pnl_cny, total_commission_cny, avg_rate) :=
      if use_dynamic_rates then
        ((usd_trades.map (fun t => t.RealizedPnl * getRate t.Date default_rate)).sum,
         (usd_trades.map (fun t => t.Commission * getRate t.Date default_rate)).sum,
         listMean (usd_trades.map (fun t => getRate t.Date default_rate)))
      else
        (total_pnl * default_rate, total_commission * default_rate,
         some default_rate)
    some { Total_Trades := trades.length, USD_Trades := usd_trades.length,
           Realized_PnL_USD := round2 total_pnl,
           Realized_PnL_CNY := round2 total_pnl_cny,
           Total_Commission_USD := round2 total_commission,
           Total_Commission_CNY := round2 total_commission_cny,
           Net_PnL_USD := round2 (total_pnl - total_commission),
           Net_PnL_CNY := round2 (total_pnl_cny - total_commission_cny),
           Average_Exchange_Rate := avg_rate.map round4 }

/-- The dividend-summary block of `calculate_summary` (data_parser.py,
lines 337-361). -/
def dividend_summary_of (getRate : String → ℚ → ℚ) (dividends : List DivRow)
    (use_dynamic_rates : Bool) (default_rate : ℚ) : Option DividendSummary :=
  if dividends.isEmpty then Option.none
  else
    let usd_divs := dividends.filter (fun d => d.Currency == "USD")
    let total_dividends := (usd_divs.map (fun d => d.Amount)).sum
    let (total_dividends_cny, avg_rate) :=
      if use_dynamic_rates then
        ((usd_divs.map (fun d => d.Amount * getRate d.Date default_rate)).sum,
         listMean (usd_divs.map (fun d => getRate d.Date default_rate)))
      else
        (total_dividends * default_rate, some default_rate)
    some { Total_Dividends := dividends.length,
           Total_Amount_USD := round2 total_dividends,
           Total_Amount_CNY := round2 total_dividends_cny,
           Average_Exchange_Rate := avg_rate.map round4 }

/-- The tax-summary block of `calculate_summary` (data_parser.py, lines
363-386). -/
def tax_summary_of (getRate : String → ℚ → ℚ) (taxes : List TaxRow)
    (use_dynamic_rates : Bool) (default_rate : ℚ) : Option TaxSummary :=
  if taxes.isEmpty then Option.none
  else
    let usd_tax := taxes.filter (fun t => t.Currency == "USD")
    let total_tax := (usd_tax.map (fun t => t.Amount)).sum
    let (total_tax_cny, avg_rate) :=
      if use_dynamic_rates then
        ((usd_tax.map (fun t => t.Amount * getRate t.Date default_rate)).sum,
         listMean (usd_tax.map (fun t => getRate t.Date default_rate)))
      else
        (total_tax * default_rate, some default_rate)
    some { Total_Withholding_Tax_USD := round2 total_tax,
           Total_Withholding_Tax_CNY := round2 total_tax_cny,
           Average_Exchange_Rate := avg_rate.map round4 }

/-- The China tax-liability block of `calculate_summary` (data_parser.py,
lines 388-409): present only when both the trade and the dividend summary
are; the float literal `0.2` is the exact rational `1/5`. -/
def china_tax_of (trade_summary : Option TradeSummary)
    (dividend_summary : Option DividendSummary)
    (tax_summary : Option TaxSummary) : Option ChinaTaxCalculation :=
  match trade_summary, dividend_summary with
  | some ts, some ds =>
    let taxable_income_cny := ts.Net_PnL_CNY + ds.Total_Amount_CNY
    let tax_due_20_pct := taxable_income_cny * (1 / 5)
    let foreign_tax_credit :=
      match tax_summary with
      | some xs => min xs.Total_Withholding_Tax_CNY (ds.Total_Amount_CNY * (1 / 5))
      | Option.none => 0
    some { Taxable_Income_CNY := round2 taxable_income_cny,
           Tax_Due_20pct_CNY := round2 tax_due_20_pct,
           Foreign_Tax_Credit_CNY := round2 foreign_tax_credit,
           Tax_Payable_CNY := round2 (tax_due_20_pct - foreign_tax_credit) }
  | _, _ => Option.none

/-- The account-summary block of `calculate_summary` (data_parser.py, lines
411-428). -/
def account_summary_of (deposits_withdrawals : Option (List DWRow)) :
    Option AccountSummary :=
  match deposits_withdrawals with
  | some dws =>
    if dws.isEmpty then Option.none
    else
      let deposits := dws.filter (fun r => r.Transaction_Type == "Deposit")
      let withdrawals := dws.filter (fun r => r.Transaction_Type == "Withdrawal")
      let total_deposits_base := (deposits.map (fun r => r.Amount_Base_Currency)).sum
      let total_withdrawals_base := |(withdrawals.map (fun r => r.Amount_Base_Currency)).sum|
      some { Total_Deposits_Count := deposits.length,
             Total_Withdrawals_Count := withdrawals.length,
             Total_Deposits_Base_Currency := round2 total_deposits_base,
             Total_Withdrawals_Base_Currency := round2 total_withdrawals_base,
             Net_Deposits_Base_Currency := round2 (total_deposits_base - total_withdrawals_base) }
  | Option.none => Option.none

/-- `calculate_summary` (data_parser.py, lines 272-430), assembled from the
five independent category blocks. -/
def calculate_summary (getRate : String → ℚ → ℚ)
    (trades : List TradeRow) (dividends : List DivRow) (taxes : List TaxRow)
    (deposits_withdrawals : Option (List DWRow))
    (use_dynamic_rates : Bool) (default_rate : ℚ) : Summary :=
  { Trade_Summary := trade_summary_of getRate trades use_dynamic_rates default_rate,
    Dividend_Summary := dividend_summary_of getRate dividends use_dynamic_rates default_rate,
    Tax_Summary := tax_summary_of getRate taxes use_dynamic_rates default_rate,
    China_Tax_Calculation := china_tax_of
      (trade_summary_of getRate trades use_dynamic_rates default_rate)
      (dividend_summary_of getRate dividends use_dynamic_rates default_rate)
      (tax_summary_of getRate taxes use_dynamic_rates default_rate),
    Account_Summary := account_summary_of deposits_withdrawals }

/-- One event of the drawdown timeline. -/
structure DDEvent where
  date : String
  change : ℚ
deriving DecidableEq, Repr

/-- Stable insertion (a later event with an equal date goes after the
earlier ones), matching Python's stable `list.sort(key=date)`. -/
def ddInsert (e : DDEvent) : List DDEvent → List DDEvent
  | [] => [e]
  | x :: xs => if strLtB e.date x.date then e :: x :: xs else x :: ddInsert e xs

/-- Stable sort of the event timeline by date. -/
def ddSort (es : List DDEvent) : List DDEvent :=
  es.foldl (fun acc e => ddInsert e acc) []

/-- The event timeline of `_calculate_max_drawdown` (data_parser.py, lines
771-786): trades, then dividends, then deposits/withdrawals. -/
def ddEventsOf (trades : List TradeRow) (dividends : List DivRow)
    (dws : List DWRow) : List DDEvent :=
  trades.map (fun t => { date := t.Date, change := t.RealizedPnl })
    ++ dividends.map (fun d => { date := d.Date, change := d.Amount })
    ++ dws.map (fun w => { date := w.Date, change := w.Amount_Base_Currency })

/-- The walk of `_calculate_max_drawdown` (data_parser.py, lines 802-809):
returns (running value, running peak, maximum drawdown observed). -/
def ddWalk : List DDEvent → ℚ → ℚ → ℚ → ℚ × ℚ × ℚ
  | [], current, peak, maxdd => (current, peak, maxdd)
  | e :: rest, current, peak, maxdd =>
    let current := current + e.change
    let peak := max peak current
    let maxdd :=
      if peak > 0 then max maxdd ((peak - current) / peak * 100) else maxdd
    ddWalk rest current peak maxdd

/-- `_calculate_max_drawdown` (data_parser.py, lines 747-816).  The leading
underscore of the source name is dropped. -/
def calculate_max_drawdown (trades : List TradeRow) (dividends : List DivRow)
    (dws : List DWRow) (beginning_net_worth ending_net_worth : ℚ) : ℚ :=
  if beginning_net_worth = 0 then 0
  else
    let events := ddEventsOf trades dividends dws
    if events.isEmpty then
      if ending_net_worth < beginning_net_worth then
        (beginning_net_worth - ending_net_worth) / beginning_net_worth * 100
      else 0
    else
      let (_, peak_value, max_drawdown) := ddWalk (ddSort events)
        beginning_net_worth beginning_net_worth 0
      if peak_value > 0 then
        max max_drawdown ((peak_value - ending_net_worth) / peak_value * 100)
      else max_drawdown

/-- Is the year a leap year? -/
def isLeap (y : ℕ) : Bool := (y % 4 == 0 && y % 100 != 0) || y % 400 == 0

/-- Days in a month. -/
def daysInMonth (y m : ℕ) : ℕ :=
  if m == 2 then (if isLeap y then 29 else 28)
  else if m == 4 || m == 6 || m == 9 || m == 11 then 30
  else 31

/-- `datetime.strptime(s, "%Y%m%d")` on the statement format: exactly eight
digits with a valid calendar date; otherwise `ValueError`, modelled as
`none`. -/
def strptimeYmd (s : String) : Option (ℕ × ℕ × ℕ) :=
  let cs := s.data
  if cs.length == 8 && allDigits cs then
    let y := natOfDigits (cs.take 4)
    let m := natOfDigits ((cs.drop 4).take 2)
    let d := natOfDigits (cs.drop 6)
    if 1 ≤ y && 1 ≤ m && m ≤ 12 && 1 ≤ d && d ≤ daysInMonth y m then
      some (y, m, d)
    else Option.none
  else Option.none

/-- Day number of a civil date (days-from-civil algorithm on `ℕ` inputs with
`1 ≤ y`, `1 ≤ m ≤ 12`), offset so that 1970-01-01 is day 0 as in Python's
`datetime` subtraction. -/
def toRataDie (y m d : ℕ) : ℤ :=
  let y1 := if m ≤ 2 then y - 1 else y
  let era := y1 / 400
  let yoe := y1 % 400
  let mp := (m + 9) % 12
  let doy := (153 * mp + 2) / 5 + d - 1
  let doe := yoe * 365 + yoe / 4 - yoe / 100 + doy
  ((era * 146097 + doe : ℕ) : ℤ) - 719468

/-- `(date_to - date_from).days` for parsed dates. -/
def daysBetween (f t : ℕ × ℕ × ℕ) : ℤ :=
  toRataDie t.1 t.2.1 t.2.2 - toRataDie f.1 f.2.1 f.2.2

/-- The investment-period computation of `calculate_performance`
(data_parser.py, lines 662-670): both endpoints must be present and truthy
(non-empty) and parse as dates; any failure falls back to a 1-day period. -/
def investment_days_of (from_date to_date : Option String) : ℤ :=
  match from_date, to_date with
  | some f, some t =>
    if f ≠ "" ∧ t ≠ "" then
      match strptimeYmd f, strptimeYmd t with
      | some df, some dt => daysBetween df dt + 1
      | _, _ => 1
    else 1
  | _, _ => 1

/-- Minimum of a string column (pandas `.min()`, lexicographic). -/
def listMinStr : List String → Option String
  | [] => Option.none
  | x :: xs => some (xs.foldl (fun a b => if strLtB b a then b else a) x)

/-- Maximum of a string column (pandas `.max()`, lexicographic). -/
def listMaxStr : List String → Option String
  | [] => Option.none
  | x :: xs => some (xs.foldl (fun a b => if strLtB a b then b else a) x)

/-- The investment-period computation of `calculate_performance`
(data_parser.py, lines 644-670): the three-table date span is only used
when *all three* tables are non-empty; otherwise the trade span when trades
exist; otherwise no dates are selected and the period is 1 day. -/
def investment_period_of (trades : List TradeRow) (dividends : List DivRow)
    (deposits_withdrawals : List DWRow) : ℤ :=
  let (from_date, to_date) : Option String × Option String :=
    if !trades.isEmpty && !dividends.isEmpty && !deposits_withdrawals.isEmpty then
      let all_dates := trades.map (fun t => t.Date) ++ dividends.map (fun d => d.Date)
        ++ deposits_withdrawals.map (fun w => w.Date)
      (listMinStr all_dates, listMaxStr all_dates)
    else if !trades.isEmpty then
      (listMinStr (trades.map (fun t => t.Date)), listMaxStr (trades.map (fun t => t.Date)))
    else (Option.none, Option.none)
  investment_days_of from_date to_date

/-- The `Performance_Summary` category. -/
structure PerformanceSummary where
  Beginning_Net_Worth_USD : ℚ
  Ending_Net_Worth_USD : ℚ
  Beginning_Net_Worth_CNY : ℚ
  Ending_Net_Worth_CNY : ℚ
  Net_Deposits_USD : ℚ
  Net_Deposits_CNY : ℚ
  Total_Return_Percent : ℚ
  Annualized_Return_Percent : ℚ
  Max_Drawdown_Percent : ℚ
  Realized_ROI_Percent : ℚ
  Investment_Period_Days : ℤ
  Avg_Exchange_Rate : ℚ
deriving DecidableEq, Repr

/-- The `Position_Details` category. -/
structure PositionDetails where
  Total_Positions : ℕ
  Total_Position_Value_USD : ℚ
  Total_Cost_Basis_USD : ℚ
  Total_UnrealizedPnl_USD : ℚ
  Total_UnrealizedPnl_CNY : ℚ
deriving DecidableEq, Repr

/-- The performance dictionary. -/
structure Performance where
  Performance_Summary : PerformanceSummary
  Position_Details : Option PositionDetails
deriving DecidableEq, Repr

/-- `calculate_performance` (data_parser.py, lines 540-744).  External
effects are parameters: `getRate` is the exchange-rate oracle, `today` is
`datetime.now().strftime("%Y%m%d")`, and `powq` is the machine floating
power operator `**` used by the annualized-return formula.  `cash_report`
is `none` when the parsed cash report was the empty dictionary. -/
def calculate_performance (getRate : String → ℚ → ℚ) (today : String)
    (powq : ℚ → ℚ → ℚ)
    (trades : List TradeRow) (dividends : List DivRow)
    (deposits_withdrawals : List DWRow) (open_positions : List PosRow)
    (cash_report : Option CashReport)
    (use_dynamic_rates : Bool) (default_rate : ℚ) : Performance :=
  let position_rate :=
    if use_dynamic_rates then
      let last_date :=
        if !trades.isEmpty then (listMaxStr (trades.map (fun t => t.Date))).getD ""
        else today
      getRate last_date default_rate
    else default_rate
  let beginning_cash := match cash_report with
    | some cr => cr.Starting_Cash
    | Option.none => 0
  let ending_cash := match cash_report with
    | some cr => cr.Ending_Cash
    | Option.none => 0
  let usd_positions := open_positions.filter (fun p => p.Currency == "USD")
  let ending_positions_value_usd :=
    if !open_positions.isEmpty then (usd_positions.map (fun p => p.Position_Value)).sum else 0
  let total_cost_basis_usd :=
    if !open_positions.isEmpty then (usd_positions.map (fun p => p.Cost_Basis)).sum else 0
  let total_unrealized_pnl_usd :=
    if !open_positions.isEmpty then (usd_positions.map (fun p => p.UnrealizedPnl)).sum else 0
  let total_unrealized_pnl_cny :=
    if !open_positions.isEmpty then
      (usd_positions.map (fun p => p.UnrealizedPnl * position_rate)).sum
    else 0
  let beginning_net_worth_usd := beginning_cash
  let ending_net_worth_usd := ending_cash + ending_positions_value_usd
  let beginning_rate :=
    if use_dynamic_rates then
      if !trades.isEmpty then
        getRate ((listMinStr (trades.map (fun t => t.Date))).getD "") default_rate
      else default_rate
    else default_rate
  let beginning_net_worth_cny := beginning_net_worth_usd * beginning_rate
  let ending_net_worth_cny := ending_net_worth_usd * position_rate
  let net_deposits_usd :=
    if !deposits_withdrawals.isEmpty then
      (deposits_withdrawals.map (fun r => r.Amount_Base_Currency)).sum
    else 0
  let net_deposits_cny :=
    if !deposits_withdrawals.isEmpty then
      net_deposits_usd * (if use_dynamic_rates then getRate today default_rate else default_rate)
    else 0
  let investment_days := investment_period_of trades dividends deposits_withdrawals
  let total_return :=
    if beginning_net_worth_usd > 0 then
      (ending_net_worth_usd - beginning_net_worth_usd - net_deposits_usd)
        / beginning_net_worth_usd * 100
    else 0
  let annualized_return :=
    if investment_days ≥ 1 then
      (powq (1 + total_return / 100) (365 / (investment_days : ℚ)) - 1) * 100
    else 0
  let realized_roi :=
    if !trades.isEmpty then
      let usd_trades := trades.filter (fun t => t.Currency == "USD")
      let realized_gains := (usd_trades.map (fun t => t.RealizedPnl)).sum
      let realized_costs := (usd_trades.map (fun t => t.Cost)).sum
      if realized_costs > 0 then realized_gains / realized_costs * 100 else 0
    else 0
  let max_drawdown := calculate_max_drawdown trades dividends deposits_withdrawals
    beginning_net_worth_usd ending_net_worth_usd
  { Performance_Summary :=
      { Beginning_Net_Worth_USD := round2 beginning_net_worth_usd,
        Ending_Net_Worth_USD := round2 ending_net_worth_usd,
        Beginning_Net_Worth_CNY := round2 beginning_net_worth_cny,
        Ending_Net_Worth_CNY := round2 ending_net_worth_cny,
        Net_Deposits_USD := round2 net_deposits_usd,
        Net_Deposits_CNY := round2 net_deposits_cny,
        Total_Return_Percent := round2 total_return,
        Annualized_Return_Percent := round2 annualized_return,
        Max_Drawdown_Percent := round2 max_drawdown,
        Realized_ROI_Percent := round2 realized_roi,
        Investment_Period_Days := investment_days,
        Avg_Exchange_Rate := round4 (if !open_positions.isEmpty then position_rate else default_rate) },
    Position_Details :=
      if !open_positions.isEmpty then
        some { Total_Positions := usd_positions.length,
               Total_Position_Value_USD := round2 ending_positions_value_usd,
               Total_Cost_Basis_USD := round2 total_cost_basis_usd,
               Total_UnrealizedPnl_USD := round2 total_unrealized_pnl_usd,
               Total_UnrealizedPnl_CNY := round2 total_unrealized_pnl_cny }
      else Option.none }

/-- One remote response to a poll attempt, as distinguished by the branches
of `FlexQueryClient.get_report` (flex_query.py, lines 123-168). -/
inductive PollResponse where
  /-- `requests.RequestException` raised by the network call. -/
  | netError : PollResponse
  /-- The XML body fails to parse. -/
  | parseError : PollResponse
  /-- `FlexStatementResponse` with `Status == "Success"`; the payload is the
  `FlexStatements.FlexStatement` node. -/
  | stmtSuccess (payload : PyVal) : PollResponse
  /-- `FlexStatementResponse` with `Status == "Fail"` and the given
  `ErrorMessage`. -/
  | stmtFail (msg : String) : PollResponse
  /-- `FlexStatementResponse` with a status that is neither `"Success"` nor
  `"Fail"`: the loop body falls through to the next attempt. -/
  | stmtOther : PollResponse
  /-- A `FlexQueryResponse` envelope; returns its statement node. -/
  | queryOk (payload : PyVal) : PollResponse
  /-- Neither envelope key: the loop body falls through. -/
  | otherShape : PollResponse

/-- Terminal outcome of `get_report`: the returned payload or the raised
`APIError`. -/
inductive APIResult where
  | ok (payload : PyVal) : APIResult
  /-- `APIError("Failed to parse XML response: ...")`. -/
  | parseFailed : APIResult
  /-- `APIError("Retrieval failed: <msg>")`. -/
  | retrievalFailed (msg : String) : APIResult
  /-- `APIError("Failed to retrieve report after <n> attempts")`. -/
  | netFailed (attempts : ℕ) : APIResult
  /-- `APIError("Report retrieval timeout after <n> attempts")`. -/
  | timeout (attempts : ℕ) : APIResult

/-- Observable trace of one `get_report` call: the outcome, the number of
network calls, the number of flat `RETRY_DELAY` sleeps (the "not yet ready"
path), and the number of exponential-backoff sleeps (the network-error
path). -/
structure PollTrace where
  result : APIResult
  calls : ℕ
  flatSleeps : ℕ
  backoffSleeps : ℕ

/-- The retry loop of `get_report`, one constructor case per source branch.
`remaining` is the number of loop iterations left (`max_retries - attempt`);
the `attempt < max_retries - 1` test guarding a network-error retry uses
truncated subtraction, which agrees with the Python test for every reachable
state. -/
def get_report_aux (resp : ℕ → PollResponse) (max_retries : ℕ) :
    ℕ → ℕ → ℕ → ℕ → ℕ → PollTrace
  | 0, _, calls, flat, back =>
    { result := .timeout max_retries, calls := calls, flatSleeps := flat,
      backoffSleeps := back }
  | r + 1, attempt, calls, flat, back =>
    match resp attempt with
    | .netError =>
      if attempt < max_retries - 1 then
        get_report_aux resp max_retries r (attempt + 1) (calls + 1) flat (back + 1)
      else
        { result := .netFailed max_retries, calls := calls + 1,
          flatSleeps := flat, backoffSleeps := back }
    | .parseError =>
      { result := .parseFailed, calls := calls + 1, flatSleeps := flat,
        backoffSleeps := back }
    | .stmtSuccess p =>
      { result := .ok p, calls := calls + 1, flatSleeps := flat,
        backoffSleeps := back }
    | .stmtFail msg =>
      if containsSub msg "Statement is not yet ready" then
        get_report_aux resp max_retries r (attempt + 1) (calls + 1) (flat + 1) back
      else
        { result := .retrievalFailed msg, calls := calls + 1,
          flatSleeps := flat, backoffSleeps := back }
    | .stmtOther =>
      get_report_aux resp max_retries r (attempt + 1) (calls + 1) flat back
    | .queryOk p =>
      { result := .ok p, calls := calls + 1, flatSleeps := flat,
        backoffSleeps := back }
    | .otherShape =>
      get_report_aux resp max_retries r (attempt + 1) (calls + 1) flat back

/-- `FlexQueryClient.get_report` (flex_query.py, lines 101-168) over an
abstract response stream: attempt `i` of the loop receives `resp i`. -/
def get_report (resp : ℕ → PollResponse) (max_retries : ℕ) : PollTrace :=
  get_report_aux resp max_retries max_retries 0 0 0 0

/-- `MAX_RETRIES` (constants.py): the default retry ceiling of `get_report`. -/
def MAX_RETRIES : ℕ := 3

/-- A record field that is textual when present. -/
def strOrAbsentField (kvs : List (String × PyVal)) (key : String) : Bool :=
  match dictGet kvs key with
  | Option.none => true
  | some (.str _) => true
  | some _ => false

/-- A date/time field: textual when present, with at most one `";"`
separator (a second separator makes the two-way unpack of
`parse_deposits_withdrawals` raise). -/
def dateFieldWF (kvs : List (String × PyVal)) (key : String) : Bool :=
  match dictGet kvs key with
  | Option.none => true
  | some (.str s) => (s.data.filter (fun c => c == ';')).length ≤ 1
  | some _ => false

/-- Well-formed closed-lot record: the fields flowing into string
operations or stored text columns are textual when present (numeric fields
may hold anything — `safe_float` is total). -/
def lotWF (kvs : List (String × PyVal)) : Bool :=
  strOrAbsentField kvs "@tradeDate" && strOrAbsentField kvs "@dateTime" &&
  strOrAbsentField kvs "@symbol" && strOrAbsentField kvs "@description" &&
  strOrAbsentField kvs "@buySell" && strOrAbsentField kvs "@currency" &&
  strOrAbsentField kvs "@assetCategory" && strOrAbsentField kvs "@openDateTime"

/-- Well-formed cash-transaction record. -/
def cashTxnWF (kvs : List (String × PyVal)) : Bool :=
  strOrAbsentField kvs "@type" && strOrAbsentField kvs "@description" &&
  dateFieldWF kvs "@dateTime" && dateFieldWF kvs "@reportDate" &&
  strOrAbsentField kvs "@symbol" && strOrAbsentField kvs "@currency"

/-- Well-formed dedicated withholding-tax record. -/
def taxRecWF (kvs : List (String × PyVal)) : Bool :=
  strOrAbsentField kvs "@date" && strOrAbsentField kvs "@symbol" &&
  strOrAbsentField kvs "@description" && strOrAbsentField kvs "@currency" &&
  strOrAbsentField kvs "@code"

/-- Well-formed open-position record. -/
def posWF (kvs : List (String × PyVal)) : Bool :=
  strOrAbsentField kvs "@symbol" && strOrAbsentField kvs "@description" &&
  strOrAbsentField kvs "@currency" && strOrAbsentField kvs "@assetCategory"

/-- Well-formed cash-report-currency record. -/
def cashRepWF (kvs : List (String × PyVal)) : Bool :=
  strOrAbsentField kvs "@currency"

/-- Well-formed sub-collection: absent/empty/falsy, a single record
mapping, or a sequence of record mappings. -/
def subCollWF (v : PyVal) (recWF : List (String × PyVal) → Bool) : Bool :=
  match v with
  | .dict kvs => recWF kvs
  | .list xs => xs.all (fun x => match x with | .dict kvs => recWF kvs | _ => false)
  | _ => !v.truthy

/-- Well-formed cash-transaction sub-collection.  The withholding-tax
fallback iterates this collection without an emptiness check, so a `null`
or numeric value raises there even though the other cash-transaction
parsers tolerate it; only mappings, sequences of mappings and the empty
string are well-formed. -/
def cashCollWF (v : PyVal) : Bool :=
  match v with
  | .dict kvs => cashTxnWF kvs
  | .list xs => xs.all (fun x => match x with | .dict kvs => cashTxnWF kvs | _ => false)
  | .str s => s == ""
  | _ => false

/-- Well-formed top-level section: absent, falsy, or a mapping whose target
sub-collection satisfies the given collection predicate. -/
def sectionWF (kvs : List (String × PyVal)) (secKey subKey : String)
    (collWF : PyVal → Bool) : Bool :=
  match dictGet kvs secKey with
  | Option.none => true
  | some v =>
    match v with
    | .dict skvs => collWF ((dictGet skvs subKey).getD (.list []))
    | _ => !v.truthy

/-- The `"WithholdingTax"` section is accessed with
`flex_data.get("WithholdingTax", {}).get("Tax", [])`, so when present it
must itself be a mapping — a present falsy non-mapping (e.g. `null`)
already raises. -/
def wtSectionWF (kvs : List (String × PyVal)) : Bool :=
  match dictGet kvs "WithholdingTax" with
  | Option.none => true
  | some (.dict skvs) => subCollWF ((dictGet skvs "Tax").getD (.list [])) taxRecWF
  | some _ => false

/-- Well-formed statement document: a top-level mapping whose five sections
are each absent, falsy, or structurally well-formed. -/
def docWF (doc : PyVal) : Bool :=
  match doc with
  | .dict kvs =>
    sectionWF kvs "Trades" "Lot" (fun v => subCollWF v lotWF) &&
    sectionWF kvs "CashTransactions" "CashTransaction" cashCollWF &&
    wtSectionWF kvs &&
    sectionWF kvs "OpenPositions" "OpenPosition" (fun v => subCollWF v posWF) &&
    sectionWF kvs "CashReport" "CashReportCurrency" (fun v => subCollWF v cashRepWF)
  | _ => false

/-- A document holding one section with one sub-collection. -/
def mkDoc (secKey subKey : String) (v : PyVal) : PyVal :=
  .dict [(secKey, .dict [(subKey, v)])]

/-- A trade row with the given date and realized P&L (USD currency, all
other columns blank). -/
def mkTrade (date : String) (pnl : ℚ) : TradeRow :=
  { Date := date, Time := "", Symbol := "", Description := "", Quantity := 0,
    Price := 0, Amount := 0, Cost := 0, Commission := 0, RealizedPnl := pnl,
    Buy_Sell := "", Currency := "USD", Asset_Category := "", Open_DateTime := "" }

/-- A dividend row with the given date, amount and currency. -/
def mkDiv (date : String) (amount : ℚ) (currency : String) : DivRow :=
  { Date := date, Symbol := "", Description := "", Amount := amount,
    Currency := currency, TxnType := "Dividends" }

/-- A withholding-tax row with the given date, amount and currency. -/
def mkTax (date : String) (amount : ℚ) (currency : String) : TaxRow :=
  { Date := date, Symbol := "", Description := "", Amount := amount,
    Currency := currency, TxnType := "Withholding Tax" }

/-- The row parsed from an empty withholding-tax record mapping (every
field defaulted). -/
def defaultTaxRow : TaxRow :=
  { Date := "", Symbol := "", Description := "", Amount := 0, Currency := "",
    TxnType := "" }

instance {α : Type} [DecidableEq α] : DecidableEq (Except PyErr α) := fun x y =>
  match x, y with
  | .ok a, .ok b => decidable_of_iff (a = b) (by simp)
  | .error a, .error b => decidable_of_iff (a = b) (by simp)
  | .ok _, .error _ => isFalse (by simp)
  | .error _, .ok _ => isFalse (by simp)

section MainTheorems

attribute [local semireducible] Rat.mul Rat.add Rat.sub Rat.inv

lemma round2_zero : round2 0 = 0 := by decide

lemma get_report_aux_calls_le (resp : ℕ → PollResponse) (mr : ℕ) :
    ∀ r attempt calls flat back,
      (get_report_aux resp mr r attempt calls flat back).calls ≤ calls + r := by
  intro r
  induction r with
  | zero => intro attempt calls flat back; simp [get_report_aux]
  | succ n ih =>
    intro attempt calls flat back
    cases h : resp attempt with
    | netError =>
      simp only [get_report_aux, h]
      split
      · exact le_trans (ih (attempt + 1) (calls + 1) flat (back + 1)) (by omega)
      · simp only []; omega
    | parseError => simp only [get_report_aux, h]; omega
    | stmtSuccess p => simp only [get_report_aux, h]; omega
    | stmtFail msg =>
      simp only [get_report_aux, h]
      split
      · exact le_trans (ih (attempt + 1) (calls + 1) (flat + 1) back) (by omega)
      · simp only []; omega
    | stmtOther =>
      simp only [get_report_aux, h]
      exact le_trans (ih (attempt + 1) (calls + 1) flat back) (by omega)
    | queryOk p => simp only [get_report_aux, h]; omega
    | otherShape =>
      simp only [get_report_aux, h]
      exact le_trans (ih (attempt + 1) (calls + 1) flat back) (by omega)

lemma get_report_aux_step_not_ready {resp : ℕ → PollResponse} {mr r attempt calls flat back : ℕ}
    {msg : String} (h : resp attempt = .stmtFail msg)
    (hc : containsSub msg "Statement is not yet ready" = true) :
    get_report_aux resp mr (r + 1) attempt calls flat back =
      get_report_aux resp mr r (attempt + 1) (calls + 1) (flat + 1) back := by
  simp [get_report_aux, h, hc]

lemma get_report_aux_step_success {resp : ℕ → PollResponse} {mr r attempt calls flat back : ℕ}
    {p : PyVal} (h : resp attempt = .stmtSuccess p) :
    get_report_aux resp mr (r + 1) attempt calls flat back =
      { result := .ok p, calls := calls + 1, flatSleeps := flat, backoffSleeps := back } := by
  simp [get_report_aux, h]

/-- C5: on the input with beginning net worth 10000, two trades in
chronological order with realized P&L +1000 then −500, no dividends or
deposits, and ending net worth 10500, the event walk reaches a running
value of 10500 with a running peak of 11000, and the maximum drawdown is
(11000 − 10500)/11000 × 100 = 50/11 ≈ 4.545 percent. -/
theorem drawdown_up_down_scenario :
    ddWalk (ddSort (ddEventsOf [mkTrade "20250101" 1000, mkTrade "20250102" (-500)] [] []))
        10000 10000 0 = (10500, 11000, 50 / 11) ∧
    calculate_max_drawdown [mkTrade "20250101" 1000, mkTrade "20250102" (-500)] [] []
        10000 10500 = 50 / 11 := by
  constructor <;> decide

/-- C3: whenever the first two poll attempts answer a `"Fail"` status whose
message contains `"Statement is not yet ready"` and the third answers
`"Success"`, `get_report` at the default retry ceiling returns the
statement payload after exactly 3 network calls and 2 flat-delay sleeps,
never touching the exponential-backoff path. -/
theorem poll_not_ready_retry (resp : ℕ → PollResponse) (p : PyVal) (m1 m2 : String)
    (h1 : containsSub m1 "Statement is not yet ready" = true)
    (h2 : containsSub m2 "Statement is not yet ready" = true)
    (r0 : resp 0 = .stmtFail m1) (r1 : resp 1 = .stmtFail m2)
    (r2 : resp 2 = .stmtSuccess p) :
    get_report resp MAX_RETRIES =
      { result := .ok p, calls := 3, flatSleeps := 2, backoffSleeps := 0 } := by
  show get_report_aux resp 3 (2 + 1) 0 0 0 0 = _
  rw [get_report_aux_step_not_ready r0 h1, get_report_aux_step_not_ready r1 h2,
    get_report_aux_step_success r2]

/-- Witness for C3 at a concrete response stream. -/
theorem poll_not_ready_retry_witness :
    get_report (fun n => if n == 0 then .stmtFail "Statement is not yet ready"
      else if n == 1 then .stmtFail "Error: Statement is not yet ready; please retry"
      else .stmtSuccess (.dict [])) MAX_RETRIES =
      { result := .ok (.dict []), calls := 3, flatSleeps := 2, backoffSleeps := 0 } :=
  poll_not_ready_retry _ _ _ _ (by decide) (by decide) rfl rfl rfl

/-- C10: with `max_retries = 0` the loop body never runs — `get_report`
raises the timeout error naming 0 attempts with no network call and no
sleep; in general the loop body runs (and hence the network is called) at
most `max_retries` times. -/
theorem get_report_retry_budget :
    (∀ resp : ℕ → PollResponse, get_report resp 0 =
      { result := .timeout 0, calls := 0, flatSleeps := 0, backoffSleeps := 0 }) ∧
    (∀ (resp : ℕ → PollResponse) (mr : ℕ), (get_report resp mr).calls ≤ mr) := by
  constructor
  · intro resp; rfl
  · intro resp mr
    simpa using get_report_aux_calls_le resp mr mr 0 0 0 0

end MainTheorems

section ChinaTax

attribute [local semireducible] Rat.mul Rat.add Rat.sub Rat.inv

/-- C1: whenever `calculate_summary` produces a trade summary, a dividend
summary and a tax summary, the reported foreign tax credit is
min(total withholding tax (CNY), total dividend amount (CNY) × 20%) and the
reported tax payable is (net trade P&L (CNY) + dividend amount (CNY)) × 20%
minus that credit, for all non-negative totals (monetary outputs carry the
2-decimal output rounding of the source and `0.2` is the rational `1/5`). -/
theorem china_tax_credit_and_payable (getRate : String → ℚ → ℚ)
    (trades : List TradeRow) (dividends : List DivRow) (taxes : List TaxRow)
    (dws : Option (List DWRow)) (dyn : Bool) (rate : ℚ)
    (ts : TradeSummary) (ds : DividendSummary) (xs : TaxSummary) (ct : ChinaTaxCalculation)
    (hts : (calculate_summary getRate trades dividends taxes dws dyn rate).Trade_Summary = some ts)
    (hds : (calculate_summary getRate trades dividends taxes dws dyn rate).Dividend_Summary = some ds)
    (hxs : (calculate_summary getRate trades dividends taxes dws dyn rate).Tax_Summary = some xs)
    (hct : (calculate_summary getRate trades dividends taxes dws dyn rate).China_Tax_Calculation = some ct)
    (hW : 0 ≤ xs.Total_Withholding_Tax_CNY) (hD : 0 ≤ ds.Total_Amount_CNY) :
    ct.Foreign_Tax_Credit_CNY =
      round2 (min xs.Total_Withholding_Tax_CNY (ds.Total_Amount_CNY * (1 / 5))) ∧
    ct.Tax_Payable_CNY =
      round2 ((ts.Net_PnL_CNY + ds.Total_Amount_CNY) * (1 / 5)
        - min xs.Total_Withholding_Tax_CNY (ds.Total_Amount_CNY * (1 / 5))) := by
  simp only [calculate_summary] at hts hds hxs hct
  rw [hts, hds, hxs] at hct
  simp only [china_tax_of] at hct
  injection hct with h
  subst h
  exact ⟨rfl, rfl⟩

/-- Witness for C1: one USD trade, one USD dividend and one USD withholding
tax row at the static default rate 7. -/
theorem china_tax_credit_and_payable_witness :
    (0 : ℚ) ≤ 7 ∧ (0 : ℚ) ≤ 175 ∧
    ((calculate_summary (fun _ d => d) [mkTrade "20250101" 100]
        [mkDiv "20250102" 25 "USD"] [mkTax "20250102" 1 "USD"] Option.none false 7
      ).China_Tax_Calculation.map (fun ct => ct.Foreign_Tax_Credit_CNY)) = some 7 := by
  refine ⟨by norm_num, by norm_num, ?_⟩
  have h := china_tax_credit_and_payable (fun _ d => d) [mkTrade "20250101" 100]
    [mkDiv "20250102" 25 "USD"] [mkTax "20250102" 1 "USD"] Option.none false 7
    { Total_Trades := 1, USD_Trades := 1, Realized_PnL_USD := 100,
      Realized_PnL_CNY := 700, Total_Commission_USD := 0, Total_Commission_CNY := 0,
      Net_PnL_USD := 100, Net_PnL_CNY := 700, Average_Exchange_Rate := some 7 }
    { Total_Dividends := 1, Total_Amount_USD := 25, Total_Amount_CNY := 175,
      Average_Exchange_Rate := some 7 }
    { Total_Withholding_Tax_USD := 1, Total_Withholding_Tax_CNY := 7,
      Average_Exchange_Rate := some 7 }
    { Taxable_Income_CNY := 875, Tax_Due_20pct_CNY := 175,
      Foreign_Tax_Credit_CNY := 7, Tax_Payable_CNY := 168 }
    (by decide) (by decide) (by decide) (by decide) (by norm_num) (by norm_num)
  rw [show (calculate_summary (fun _ d => d) [mkTrade "20250101" 100]
      [mkDiv "20250102" 25 "USD"] [mkTax "20250102" 1 "USD"] Option.none false 7
    ).China_Tax_Calculation =
    some { Taxable_Income_CNY := 875, Tax_Due_20pct_CNY := 175,
           Foreign_Tax_Credit_CNY := 7, Tax_Payable_CNY := 168 } from by decide]
  simp [h.1]

end ChinaTax

section NoUsdRows

attribute [local semireducible] Rat.mul Rat.add Rat.sub Rat.inv

/-- C9: with dynamic rates, non-empty tables containing no USD-currency
rows still produce their summaries, with every USD/CNY monetary total equal
to 0 but `Average_Exchange_Rate` equal to the mean of an empty row set —
the float `NaN`, modelled as `none` — rather than the default rate. -/
theorem summary_non_usd_dynamic (getRate : String → ℚ → ℚ)
    (trades : List TradeRow) (dividends : List DivRow) (taxes : List TaxRow)
    (dws : Option (List DWRow)) (rate : ℚ)
    (htn : trades ≠ []) (hdn : dividends ≠ []) (hxn : taxes ≠ [])
    (ht : ∀ t ∈ trades, t.Currency ≠ "USD")
    (hd : ∀ d ∈ dividends, d.Currency ≠ "USD")
    (hx : ∀ x ∈ taxes, x.Currency ≠ "USD") :
    (calculate_summary getRate trades dividends taxes dws true rate).Trade_Summary =
      some { Total_Trades := trades.length, USD_Trades := 0, Realized_PnL_USD := 0,
             Realized_PnL_CNY := 0, Total_Commission_USD := 0, Total_Commission_CNY := 0,
             Net_PnL_USD := 0, Net_PnL_CNY := 0, Average_Exchange_Rate := Option.none } ∧
    (calculate_summary getRate trades dividends taxes dws true rate).Dividend_Summary =
      some { Total_Dividends := dividends.length, Total_Amount_USD := 0,
             Total_Amount_CNY := 0, Average_Exchange_Rate := Option.none } ∧
    (calculate_summary getRate trades dividends taxes dws true rate).Tax_Summary =
      some { Total_Withholding_Tax_USD := 0, Total_Withholding_Tax_CNY := 0,
             Average_Exchange_Rate := Option.none } := by
  have hft : trades.filter (fun t => t.Currency == "USD") = [] :=
    List.filter_eq_nil_iff.mpr (fun t htm => by simpa using ht t htm)
  have hfd : dividends.filter (fun d => d.Currency == "USD") = [] :=
    List.filter_eq_nil_iff.mpr (fun d hdm => by simpa using hd d hdm)
  have hfx : taxes.filter (fun x => x.Currency == "USD") = [] :=
    List.filter_eq_nil_iff.mpr (fun x hxm => by simpa using hx x hxm)
  refine ⟨?_, ?_, ?_⟩ <;>
    simp [calculate_summary, trade_summary_of, dividend_summary_of, tax_summary_of,
      hft, hfd, hfx, htn, hdn, hxn, listMean, round2_zero]

/-- Witness for C9: one EUR trade, one EUR dividend, one EUR tax row. -/
theorem summary_non_usd_dynamic_witness :
    ([{ mkTrade "20250101" 100 with Currency := "EUR" }] ≠ ([] : List TradeRow)) ∧
    (calculate_summary (fun _ d => d) [{ mkTrade "20250101" 100 with Currency := "EUR" }]
        [mkDiv "20250102" 25 "EUR"] [mkTax "20250102" 1 "EUR"] Option.none true 7
      ).Trade_Summary =
      some { Total_Trades := 1, USD_Trades := 0, Realized_PnL_USD := 0,
             Realized_PnL_CNY := 0, Total_Commission_USD := 0, Total_Commission_CNY := 0,
             Net_PnL_USD := 0, Net_PnL_CNY := 0, Average_Exchange_Rate := Option.none } := by
  refine ⟨by decide, ?_⟩
  exact (summary_non_usd_dynamic (fun _ d => d)
    [{ mkTrade "20250101" 100 with Currency := "EUR" }]
    [mkDiv "20250102" 25 "EUR"] [mkTax "20250102" 1 "EUR"] Option.none 7
    (by decide) (by decide) (by decide)
    (by decide) (by decide) (by decide)).1

end NoUsdRows

section ZeroBeginning

attribute [local semireducible] Rat.mul Rat.add Rat.sub Rat.inv

/-- C8: when the cash snapshot's starting cash is 0, `calculate_performance`
reports a total return of 0 (and a max drawdown of 0), and the drawdown
computation seeded with beginning net worth 0 returns 0; the whole
computation is total, i.e. never raises. -/
theorem performance_zero_beginning (getRate : String → ℚ → ℚ) (today : String)
    (powq : ℚ → ℚ → ℚ) (trades : List TradeRow) (dividends : List DivRow)
    (dws : List DWRow) (poss : List PosRow) (cr : CashReport)
    (dyn : Bool) (rate : ℚ) (h : cr.Starting_Cash = 0) :
    (calculate_performance getRate today powq trades dividends dws poss (some cr) dyn rate
      ).Performance_Summary.Total_Return_Percent = 0 ∧
    (calculate_performance getRate today powq trades dividends dws poss (some cr) dyn rate
      ).Performance_Summary.Max_Drawdown_Percent = 0 ∧
    (∀ (t : List TradeRow) (d : List DivRow) (w : List DWRow) (e : ℚ),
      calculate_max_drawdown t d w 0 e = 0) := by
  have hdd : ∀ (t : List TradeRow) (d : List DivRow) (w : List DWRow) (e : ℚ),
      calculate_max_drawdown t d w 0 e = 0 := by
    intro t d w e; simp [calculate_max_drawdown]
  refine ⟨?_, ?_, hdd⟩ <;>
    simp [calculate_performance, h, hdd, round2_zero]

/-- Witness for C8: an empty input with a zero starting-cash snapshot. -/
theorem performance_zero_beginning_witness :
    ({ Starting_Cash := 0, Ending_Cash := 5, Net_Trades_Sales := 0,
       Net_Trades_Purchases := 0, Deposit_Withdrawals := 0, Deposits := 0,
       Withdrawals := 0, Dividends := 0, Commissions := 0,
       Currency := "BASE_SUMMARY" } : CashReport).Starting_Cash = 0 ∧
    (calculate_performance (fun _ d => d) "20250601" (fun a _ => a) [] [] [] []
        (some { Starting_Cash := 0, Ending_Cash := 5, Net_Trades_Sales := 0,
                Net_Trades_Purchases := 0, Deposit_Withdrawals := 0, Deposits := 0,
                Withdrawals := 0, Dividends := 0, Commissions := 0,
                Currency := "BASE_SUMMARY" }) false 7
      ).Performance_Summary.Total_Return_Percent = 0 :=
  ⟨rfl, (performance_zero_beginning (fun _ d => d) "20250601" (fun a _ => a) [] [] [] []
    { Starting_Cash := 0, Ending_Cash := 5, Net_Trades_Sales := 0,
      Net_Trades_Purchases := 0, Deposit_Withdrawals := 0, Deposits := 0,
      Withdrawals := 0, Dividends := 0, Commissions := 0,
      Currency := "BASE_SUMMARY" } false 7 rfl).1⟩

end ZeroBeginning

section InvestmentPeriod

attribute [local semireducible] Rat.mul Rat.add Rat.sub Rat.inv

/-- C2 counterexample: with empty trades and a non-empty dividends table
spanning 2025-01-01 … 2025-01-10, the reported investment period is 1 day,
not the 10-day dividend date span the claim requires. -/
theorem investment_period_dividend_only_counterexample :
    (calculate_performance (fun _ d => d) "20250601" (fun a _ => a) []
        [mkDiv "20250101" 1 "USD", mkDiv "20250110" 1 "USD"] [] [] Option.none false 7
      ).Performance_Summary.Investment_Period_Days = 1 ∧
    investment_days_of (some "20250101") (some "20250110") = 10 := by
  constructor <;> decide

/-- C2 (amended): the combined three-table date span is used only when all
three of trades, dividends and deposits/withdrawals are non-empty; the
trade span is used when trades are non-empty but one of the other tables is
empty; and when trades are empty the period defaults to 1 day regardless of
the other tables. -/
theorem investment_period_cases (getRate : String → ℚ → ℚ) (today : String)
    (powq : ℚ → ℚ → ℚ) (trades : List TradeRow) (dividends : List DivRow)
    (dws : List DWRow) (poss : List PosRow) (cr : Option CashReport)
    (dyn : Bool) (rate : ℚ) :
    (trades ≠ [] → dividends ≠ [] → dws ≠ [] →
      (calculate_performance getRate today powq trades dividends dws poss cr dyn rate
        ).Performance_Summary.Investment_Period_Days =
      investment_days_of
        (listMinStr (trades.map (fun t => t.Date) ++ dividends.map (fun d => d.Date)
          ++ dws.map (fun w => w.Date)))
        (listMaxStr (trades.map (fun t => t.Date) ++ dividends.map (fun d => d.Date)
          ++ dws.map (fun w => w.Date)))) ∧
    (trades ≠ [] → (dividends = [] ∨ dws = []) →
      (calculate_performance getRate today powq trades dividends dws poss cr dyn rate
        ).Performance_Summary.Investment_Period_Days =
      investment_days_of (listMinStr (trades.map (fun t => t.Date)))
        (listMaxStr (trades.map (fun t => t.Date)))) ∧
    (trades = [] →
      (calculate_performance getRate today powq trades dividends dws poss cr dyn rate
        ).Performance_Summary.Investment_Period_Days = 1) := by
  have key : (calculate_performance getRate today powq trades dividends dws poss cr dyn rate
      ).Performance_Summary.Investment_Period_Days =
      investment_period_of trades dividends dws := rfl
  refine ⟨?_, ?_, ?_⟩
  · intro h1 h2 h3
    have e1 : trades.isEmpty = false := by simp [List.isEmpty_iff, h1]
    have e2 : dividends.isEmpty = false := by simp [List.isEmpty_iff, h2]
    have e3 : dws.isEmpty = false := by simp [List.isEmpty_iff, h3]
    rw [key]; simp [investment_period_of, e1, e2, e3]
  · intro h1 h2
    have e1 : trades.isEmpty = false := by simp [List.isEmpty_iff, h1]
    rw [key]
    rcases h2 with h2 | h2 <;> subst h2 <;> simp [investment_period_of, e1]
  · intro h1
    subst h1
    rw [key]; simp [investment_period_of, investment_days_of]

/-- Witness for C2 (amended) at a trades-only input. -/
theorem investment_period_cases_witness :
    (calculate_performance (fun _ d => d) "20250601" (fun a _ => a)
        [mkTrade "20250101" 1, mkTrade "20250215" 2] [] [] [] Option.none false 7
      ).Performance_Summary.Investment_Period_Days =
      investment_days_of
        (listMinStr ([mkTrade "20250101" 1, mkTrade "20250215" 2].map (fun t => t.Date)))
        (listMaxStr ([mkTrade "20250101" 1, mkTrade "20250215" 2].map (fun t => t.Date))) :=
  (investment_period_cases (fun _ d => d) "20250601" (fun a _ => a)
    [mkTrade "20250101" 1, mkTrade "20250215" 2] [] [] [] Option.none false 7).2.1
    (by decide) (Or.inl rfl)

end InvestmentPeriod

lemma exBind_ok {α β : Type} (a : α) (f : α → Except PyErr β) :
    (Except.ok a >>= f) = f a := rfl

lemma exBind_err {α β : Type} (e : PyErr) (f : α → Except PyErr β) :
    ((Except.error e : Except PyErr α) >>= f) = Except.error e := rfl

lemma exPure_def {α : Type} (a : α) : (pure a : Except PyErr α) = Except.ok a := rfl

lemma pyGet_dict (kvs : List (String × PyVal)) (key : String) (dflt : PyVal) :
    PyVal.get (.dict kvs) key dflt = Except.ok ((dictGet kvs key).getD dflt) := rfl

lemma exMapM_mem {α β : Type} {f : α → Except PyErr β} :
    ∀ {l : List α} {ys : List β} {y : β},
      exMapM f l = Except.ok ys → y ∈ ys → ∃ x ∈ l, f x = Except.ok y := by
  intro l
  induction l with
  | nil =>
    intro ys y h hy
    simp only [exMapM] at h
    injection h with h
    subst h
    cases hy
  | cons x xs ih =>
    intro ys y h hy
    simp only [exMapM] at h
    cases hfx : f x with
    | error e => rw [hfx, exBind_err] at h; cases h
    | ok y0 =>
      rw [hfx, exBind_ok] at h
      cases hxs : exMapM f xs with
      | error e => rw [hxs, exBind_err] at h; cases h
      | ok ys0 =>
        rw [hxs, exBind_ok, exPure_def] at h
        injection h with h
        subst h
        rcases List.mem_cons.mp hy with rfl | hy0
        · exact ⟨x, List.mem_cons_self x xs, hfx⟩
        · rcases ih hxs hy0 with ⟨x1, hx1, hfx1⟩
          exact ⟨x1, List.mem_cons_of_mem x hx1, hfx1⟩

lemma depType_iff (q : ℚ) :
    (((if q > 0 then "Deposit" else "Withdrawal") : String) = "Deposit" ↔ 0 < q) ∧
    (((if q > 0 then "Deposit" else "Withdrawal") : String) = "Withdrawal" ↔ ¬ 0 < q) := by
  by_cases hq : q > 0
  · rw [if_pos hq]
    exact ⟨⟨fun _ => hq, fun _ => rfl⟩,
      ⟨fun hh => absurd hh (by decide), fun hn => absurd hq hn⟩⟩
  · rw [if_neg hq]
    exact ⟨⟨fun hh => absurd hh (by decide), fun hp => absurd hp hq⟩,
      ⟨fun _ => hq, fun _ => rfl⟩⟩

lemma parseDWTxn_some_inv {txn : PyVal} {r : DWRow}
    (h : parseDWTxn txn = Except.ok (some r)) :
    (r.Transaction_Type = "Deposit" ↔ 0 < r.Amount * r.FX_Rate_To_Base) ∧
    (r.Transaction_Type = "Withdrawal" ↔ ¬ 0 < r.Amount * r.FX_Rate_To_Base) := by
  cases txn with
  | dict kvs =>
    simp only [parseDWTxn, PyVal.get, exBind_ok, exBind_err, exPure_def, fieldStr] at h
    split at h
    · cases hcur : asStr ((dictGet kvs "@currency").getD (PyVal.str "")) with
      | error e => rw [hcur] at h; cases h
      | ok cur =>
        rw [hcur, exBind_ok] at h
        cases hdts : asStr ((dictGet kvs "@dateTime").getD
            ((dictGet kvs "@reportDate").getD (PyVal.str ""))) with
        | error e => rw [hdts, exBind_err] at h; cases h
        | ok dts =>
          rw [hdts, exBind_ok] at h
          split at h
          · split at h
            · cases hdesc : asStr ((dictGet kvs "@description").getD (PyVal.str "")) with
              | error e => rw [hdesc, exBind_err] at h; cases h
              | ok de =>
                rw [hdesc, exBind_ok] at h
                injection h with h
                injection h with h
                subst h
                exact depType_iff _
            · cases h
          · cases hdesc : asStr ((dictGet kvs "@description").getD (PyVal.str "")) with
            | error e => rw [hdesc, exBind_err] at h; cases h
            | ok de =>
              rw [hdesc, exBind_ok] at h
              injection h with h
              injection h with h
              subst h
              exact depType_iff _
    · simp at h
  | none => cases h
  | str s => cases h
  | num q => cases h
  | list xs => cases h

/-- C6: every row produced by `parse_deposits_withdrawals` is classified as
`"Deposit"` exactly when its amount times its fx-rate-to-base is strictly
positive, and as `"Withdrawal"` otherwise (including a base-currency amount
of exactly 0). -/
theorem deposits_withdrawals_classification (doc : PyVal) (rows : List DWRow)
    (h : parse_deposits_withdrawals doc = Except.ok rows) :
    ∀ r ∈ rows,
      (r.Transaction_Type = "Deposit" ↔ 0 < r.Amount * r.FX_Rate_To_Base) ∧
      (r.Transaction_Type = "Withdrawal" ↔ ¬ 0 < r.Amount * r.FX_Rate_To_Base) := by
  intro r hr
  cases doc with
  | dict kvs =>
    simp only [parse_deposits_withdrawals, pyGet_dict, exBind_ok, exBind_err, exPure_def] at h
    split at h
    · injection h with h; subst h; cases hr
    · cases hg : PyVal.get ((dictGet kvs "CashTransactions").getD PyVal.none)
          "CashTransaction" (.list []) with
      | error e => rw [hg, exBind_err] at h; cases h
      | ok ct0 =>
        rw [hg, exBind_ok] at h
        cases hit : collectRecords ct0 with
        | error e => rw [hit, exBind_err] at h; cases h
        | ok items =>
            rw [hit, exBind_ok] at h
            cases hmm : exMapM parseDWTxn items with
            | error e => rw [hmm, exBind_err] at h; cases h
            | ok rows0 =>
              rw [hmm, exBind_ok] at h
              injection h with h
              subst h
              rcases List.mem_filterMap.mp hr with ⟨b, hb, he⟩
              rw [id] at he
              subst he
              rcases exMapM_mem hmm hb with ⟨txn, _, htxn⟩
              exact parseDWTxn_some_inv htxn
  | none => cases h
  | str s => cases h
  | num q => cases h
  | list xs => cases h

section DWWitness

attribute [local semireducible] Rat.mul Rat.add Rat.sub Rat.inv

/-- Witness for C6: one deposit transaction document. -/
theorem deposits_withdrawals_classification_witness :
    parse_deposits_withdrawals (mkDoc "CashTransactions" "CashTransaction"
      (.dict [("@type", .str "Deposits/Withdrawals"), ("@dateTime", .str "20250101;120000"),
              ("@amount", .str "1000"), ("@currency", .str "USD"),
              ("@fxRateToBase", .str "7.2")])) =
      Except.ok [{ Date := "20250101", Time := "12:00:00", Description := "",
                   Amount := 1000, Currency := "USD", FX_Rate_To_Base := 36 / 5,
                   Amount_Base_Currency := 7200, Transaction_Type := "Deposit" }] ∧
    (({ Date := "20250101", Time := "12:00:00", Description := "", Amount := 1000,
        Currency := "USD", FX_Rate_To_Base := 36 / 5, Amount_Base_Currency := 7200,
        Transaction_Type := "Deposit" } : DWRow).Transaction_Type = "Deposit" ↔
      (0 : ℚ) < 1000 * (36 / 5)) := by
  refine ⟨by decide, ?_⟩
  exact (deposits_withdrawals_classification (mkDoc "CashTransactions" "CashTransaction"
    (.dict [("@type", .str "Deposits/Withdrawals"), ("@dateTime", .str "20250101;120000"),
            ("@amount", .str "1000"), ("@currency", .str "USD"),
            ("@fxRateToBase", .str "7.2")]))
    [{ Date := "20250101", Time := "12:00:00", Description := "", Amount := 1000,
       Currency := "USD", FX_Rate_To_Base := 36 / 5, Amount_Base_Currency := 7200,
       Transaction_Type := "Deposit" }] (by decide)
    { Date := "20250101", Time := "12:00:00", Description := "", Amount := 1000,
      Currency := "USD", FX_Rate_To_Base := 36 / 5, Amount_Base_Currency := 7200,
      Transaction_Type := "Deposit" } (by decide)).1

end DWWitness

section Collapsing

attribute [local semireducible] Rat.mul Rat.add Rat.sub Rat.inv

/-- C7 counterexample: for the empty record mapping, `parse_withholding_tax`
treats the bare mapping as an absent section (falling back to the — here
missing — cash transactions, hence an empty table), while the one-element
sequence containing the empty mapping parses to one defaulted row. -/
theorem singleton_collapse_counterexample :
    parse_withholding_tax (mkDoc "WithholdingTax" "Tax" (.dict [])) = Except.ok [] ∧
    parse_withholding_tax (mkDoc "WithholdingTax" "Tax" (.list [.dict []])) =
      Except.ok [defaultTaxRow] ∧
    (Except.ok ([] : List TaxRow) : Except PyErr (List TaxRow)) ≠
      Except.ok [defaultTaxRow] :=
  ⟨by decide, by decide, by decide⟩

/-- C7 (amended): a bare record mapping and the one-element sequence
containing it parse to identical tables for `parse_trades`,
`parse_dividends`, `parse_deposits_withdrawals`, `parse_open_positions` and
`parse_cash_report` for every mapping, and for `parse_withholding_tax` for
every non-empty mapping (its emptiness test precedes the singleton
normalization, so the empty mapping diverges there). -/
theorem singleton_collapse (m : List (String × PyVal)) :
    parse_trades (mkDoc "Trades" "Lot" (.dict m)) =
      parse_trades (mkDoc "Trades" "Lot" (.list [.dict m])) ∧
    parse_dividends (mkDoc "CashTransactions" "CashTransaction" (.dict m)) =
      parse_dividends (mkDoc "CashTransactions" "CashTransaction" (.list [.dict m])) ∧
    parse_deposits_withdrawals (mkDoc "CashTransactions" "CashTransaction" (.dict m)) =
      parse_deposits_withdrawals (mkDoc "CashTransactions" "CashTransaction" (.list [.dict m])) ∧
    parse_open_positions (mkDoc "OpenPositions" "OpenPosition" (.dict m)) =
      parse_open_positions (mkDoc "OpenPositions" "OpenPosition" (.list [.dict m])) ∧
    parse_cash_report (mkDoc "CashReport" "CashReportCurrency" (.dict m)) =
      parse_cash_report (mkDoc "CashReport" "CashReportCurrency" (.list [.dict m])) ∧
    (m ≠ [] → parse_withholding_tax (mkDoc "WithholdingTax" "Tax" (.dict m)) =
      parse_withholding_tax (mkDoc "WithholdingTax" "Tax" (.list [.dict m]))) := by
  refine ⟨rfl, rfl, rfl, rfl, rfl, ?_⟩
  intro hm
  cases m with
  | nil => exact absurd rfl hm
  | cons a as => rfl

/-- Witness for C7 (amended) at a concrete non-empty mapping. -/
theorem singleton_collapse_witness :
    parse_withholding_tax (mkDoc "WithholdingTax" "Tax"
        (.dict [("@amount", .str "3")])) =
      parse_withholding_tax (mkDoc "WithholdingTax" "Tax"
        (.list [.dict [("@amount", .str "3")]])) :=
  (singleton_collapse [("@amount", .str "3")]).2.2.2.2.2 (by simp)

end Collapsing

lemma strOrAbsent_getD {kvs : List (String × PyVal)} {key : String}
    (h : strOrAbsentField kvs key = true) (s0 : String) :
    ∃ s, (dictGet kvs key).getD (.str s0) = .str s := by
  unfold strOrAbsentField at h
  cases hk : dictGet kvs key with
  | none => exact ⟨s0, by simp [hk]⟩
  | some v =>
    rw [hk] at h
    cases v with
    | str s => exact ⟨s, by simp [hk]⟩
    | none => cases h
    | num q => cases h
    | dict d => cases h
    | list l => cases h

lemma fieldStr_ok {kvs : List (String × PyVal)} {key : String}
    (h : strOrAbsentField kvs key = true) :
    ∃ s, fieldStr (.dict kvs) key = Except.ok s := by
  rcases strOrAbsent_getD h "" with ⟨s, hs⟩
  exact ⟨s, by simp [fieldStr, pyGet_dict, exBind_ok, hs, asStr]⟩

lemma dateField_str {kvs : List (String × PyVal)} {key : String}
    (h : dateFieldWF kvs key = true) (s0 : String)
    (h0 : (s0.data.filter (fun c => c == ';')).length ≤ 1) :
    ∃ s, (dictGet kvs key).getD (.str s0) = .str s ∧
      (s.data.filter (fun c => c == ';')).length ≤ 1 := by
  unfold dateFieldWF at h
  cases hk : dictGet kvs key with
  | none => exact ⟨s0, by simp [hk], h0⟩
  | some v =>
    rw [hk] at h
    cases v with
    | str s => exact ⟨s, by simp [hk], by simpa using h⟩
    | none => cases h
    | num q => cases h
    | dict d => cases h
    | list l => cases h

lemma exMapM_all_ok {α β : Type} {f : α → Except PyErr β} :
    ∀ {l : List α}, (∀ x ∈ l, ∃ y, f x = Except.ok y) →
      ∃ ys, exMapM f l = Except.ok ys := by
  intro l
  induction l with
  | nil => intro _; exact ⟨[], rfl⟩
  | cons x xs ih =>
    intro h
    rcases h x (List.mem_cons_self x xs) with ⟨y, hy⟩
    rcases ih (fun a ha => h a (List.mem_cons_of_mem x ha)) with ⟨ys, hys⟩
    exact ⟨y :: ys, by simp [exMapM, hy, hys, exBind_ok, exPure_def]⟩

lemma startsWithChars_nil (cs : List Char) : startsWithChars cs [] = true := by
  cases cs <;> rfl

lemma containsChars_single {c : Char} : ∀ {cs : List Char},
    containsChars cs [c] = true ↔ c ∈ cs := by
  intro cs
  induction cs with
  | nil => simp [containsChars, startsWithChars]
  | cons a as ih =>
    rw [containsChars]
    simp only [startsWithChars, Bool.or_eq_true, Bool.and_eq_true, List.mem_cons]
    constructor
    · rintro (⟨h1, _⟩ | h2)
      · exact Or.inl (beq_iff_eq.mp h1).symm
      · exact Or.inr (ih.mp h2)
    · rintro (rfl | h2)
      · exact Or.inl ⟨beq_self_eq_true c, trivial⟩
      · exact Or.inr (ih.mpr h2)

lemma splitOnCharAux_length (sep : Char) : ∀ (cs acc : List Char),
    (splitOnCharAux sep cs acc).length = (cs.filter (fun c => c == sep)).length + 1 := by
  intro cs
  induction cs with
  | nil => intro acc; simp [splitOnCharAux]
  | cons c rest ih =>
    intro acc
    by_cases hc : c == sep
    · simp [splitOnCharAux, hc, ih]
    · simp [splitOnCharAux, hc, ih]

lemma pySplit_two {s : String}
    (hle : (s.data.filter (fun c => c == ';')).length ≤ 1)
    (hin : containsSub s ";" = true) : (pySplit s ';').length = 2 := by
  have hmem : ';' ∈ s.data := by
    have : containsChars s.data [';'] = true := hin
    exact containsChars_single.mp this
  have hge : 1 ≤ (s.data.filter (fun c => c == ';')).length := by
    have : ';' ∈ s.data.filter (fun c => c == ';') := List.mem_filter.mpr ⟨hmem, by simp⟩
    exact List.length_pos.mpr (List.ne_nil_of_mem this)
  have : (s.data.filter (fun c => c == ';')).length = 1 := le_antisymm hle hge
  simp [pySplit, splitOnCharAux_length, this]

lemma parseLot_ok {mkvs : List (String × PyVal)} (h : lotWF mkvs = true) :
    ∃ row, parseLot (.dict mkvs) = Except.ok row := by
  rw [lotWF] at h
  simp only [Bool.and_eq_true] at h
  obtain ⟨⟨⟨⟨⟨⟨⟨h1, h2⟩, h3⟩, h4⟩, h5⟩, h6⟩, h7⟩, h8⟩ := h
  rcases strOrAbsent_getD h2 "" with ⟨sdt, hsdt⟩
  rcases fieldStr_ok h3 with ⟨s3, hs3⟩
  rcases fieldStr_ok h4 with ⟨s4, hs4⟩
  rcases fieldStr_ok h5 with ⟨s5, hs5⟩
  rcases fieldStr_ok h6 with ⟨s6, hs6⟩
  rcases fieldStr_ok h7 with ⟨s7, hs7⟩
  rcases fieldStr_ok h8 with ⟨s8, hs8⟩
  simp only [parseLot, pyGet_dict, exBind_ok, hsdt, hs3, hs4, hs5, hs6, hs7, hs8, asStr]
  split
  · rcases strOrAbsent_getD h1 sdt with ⟨sv, hsv⟩
    rw [hsv]
    simp [asStr, exBind_ok, exPure_def]
  · simp [exBind_ok, exPure_def]

lemma parsePosition_ok {mkvs : List (String × PyVal)} (h : posWF mkvs = true) :
    ∃ row, parsePosition (.dict mkvs) = Except.ok row := by
  rw [posWF] at h
  simp only [Bool.and_eq_true] at h
  obtain ⟨⟨⟨h1, h2⟩, h3⟩, h4⟩ := h
  rcases fieldStr_ok h1 with ⟨s1, hs1⟩
  rcases fieldStr_ok h2 with ⟨s2, hs2⟩
  rcases fieldStr_ok h3 with ⟨s3, hs3⟩
  rcases fieldStr_ok h4 with ⟨s4, hs4⟩
  simp only [parsePosition, pyGet_dict, exBind_ok, hs1, hs2, hs3, hs4, exPure_def]
  exact ⟨_, rfl⟩

lemma parseTaxRecord_ok {mkvs : List (String × PyVal)} (h : taxRecWF mkvs = true) :
    ∃ row, parseTaxRecord (.dict mkvs) = Except.ok row := by
  rw [taxRecWF] at h
  simp only [Bool.and_eq_true] at h
  obtain ⟨⟨⟨⟨h1, h2⟩, h3⟩, h4⟩, h5⟩ := h
  rcases fieldStr_ok h1 with ⟨s1, hs1⟩
  rcases fieldStr_ok h2 with ⟨s2, hs2⟩
  rcases fieldStr_ok h3 with ⟨s3, hs3⟩
  rcases fieldStr_ok h4 with ⟨s4, hs4⟩
  rcases fieldStr_ok h5 with ⟨s5, hs5⟩
  simp only [parseTaxRecord, pyGet_dict, exBind_ok, hs1, hs2, hs3, hs4, hs5, exPure_def]
  exact ⟨_, rfl⟩

lemma parseDivTxn_ok {mkvs : List (String × PyVal)} (h : cashTxnWF mkvs = true) :
    ∃ res, parseDivTxn (.dict mkvs) = Except.ok res := by
  rw [cashTxnWF] at h
  simp only [Bool.and_eq_true] at h
  obtain ⟨⟨⟨⟨⟨h1, h2⟩, h3⟩, h4⟩, h5⟩, h6⟩ := h
  rcases strOrAbsent_getD h1 "" with ⟨st, hst⟩
  rcases strOrAbsent_getD h2 "" with ⟨sd, hsd⟩
  rcases dateField_str h4 "" (by simp) with ⟨sr, hsr, hsrc⟩
  rcases dateField_str h3 sr hsrc with ⟨sdt, hdtv, _⟩
  rcases fieldStr_ok h5 with ⟨s5, hs5⟩
  rcases fieldStr_ok h6 with ⟨s6, hs6⟩
  simp only [parseDivTxn, pyGet_dict, exBind_ok, hst, hsd, pyInStr, hsr, hdtv, hs5, hs6,
    asStr, exBind_ok, exPure_def]
  split
  · exact ⟨_, rfl⟩
  · split
    · exact ⟨_, rfl⟩
    · exact ⟨_, rfl⟩

lemma parseTaxTxnCash_ok {mkvs : List (String × PyVal)} (h : cashTxnWF mkvs = true) :
    ∃ res, parseTaxTxnCash (.dict mkvs) = Except.ok res := by
  rw [cashTxnWF] at h
  simp only [Bool.and_eq_true] at h
  obtain ⟨⟨⟨⟨⟨h1, h2⟩, h3⟩, h4⟩, h5⟩, h6⟩ := h
  rcases strOrAbsent_getD h1 "" with ⟨st, hst⟩
  rcases dateField_str h4 "" (by simp) with ⟨sr, hsr, hsrc⟩
  rcases dateField_str h3 sr hsrc with ⟨sdt, hdtv, _⟩
  rcases fieldStr_ok h5 with ⟨s5, hs5⟩
  rcases fieldStr_ok h2 with ⟨s2, hs2⟩
  rcases fieldStr_ok h6 with ⟨s6, hs6⟩
  simp only [parseTaxTxnCash, pyGet_dict, exBind_ok, hst, pyInStr, hsr, hdtv, hs5, hs2,
    hs6, asStr, exBind_ok, exPure_def]
  split
  · exact ⟨_, rfl⟩
  · split
    · exact ⟨_, rfl⟩
    · exact ⟨_, rfl⟩

lemma parseDWTxn_ok {mkvs : List (String × PyVal)} (h : cashTxnWF mkvs = true) :
    ∃ res, parseDWTxn (.dict mkvs) = Except.ok res := by
  rw [cashTxnWF] at h
  simp only [Bool.and_eq_true] at h
  obtain ⟨⟨⟨⟨⟨h1, h2⟩, h3⟩, h4⟩, h5⟩, h6⟩ := h
  rcases strOrAbsent_getD h1 "" with ⟨st, hst⟩
  rcases dateField_str h4 "" (by simp) with ⟨sr, hsr, hsrc⟩
  rcases dateField_str h3 sr hsrc with ⟨sdt, hdtv, hdtc⟩
  rcases fieldStr_ok h6 with ⟨s6, hs6⟩
  rcases fieldStr_ok h2 with ⟨s2, hs2⟩
  simp only [parseDWTxn, pyGet_dict, exBind_ok, hst, hsr, hdtv, hs6, hs2, asStr,
    exBind_ok, exPure_def]
  split
  · split
    · rw [if_pos (by simp [pySplit_two hdtc (by assumption)])]
      exact ⟨_, rfl⟩
    · exact ⟨_, rfl⟩
  · exact ⟨_, rfl⟩

lemma collectRecords_ok {v : PyVal} {recWF : List (String × PyVal) → Bool}
    (h : subCollWF v recWF = true) :
    ∃ items, collectRecords v = Except.ok items ∧
      ∀ x ∈ items, ∃ kv, x = PyVal.dict kv ∧ recWF kv = true := by
  cases v with
  | dict kv =>
    refine ⟨[.dict kv], rfl, ?_⟩
    intro x hx
    rw [List.mem_singleton] at hx
    exact ⟨kv, hx, h⟩
  | list xs =>
    cases xs with
    | nil => exact ⟨[], rfl, by intro x hx; cases hx⟩
    | cons a as =>
      refine ⟨a :: as, rfl, ?_⟩
      intro x hx
      have hall : ∀ y ∈ a :: as,
          (match y with | PyVal.dict kvs => recWF kvs | _ => false) = true :=
        List.all_eq_true.mp h
      have hx1 := hall x hx
      cases x with
      | dict kv => exact ⟨kv, rfl, hx1⟩
      | none => cases hx1
      | str s => cases hx1
      | num q => cases hx1
      | list l => cases hx1
  | none => exact ⟨[], rfl, by intro x hx; cases hx⟩
  | str s =>
    have hs : (s ≠ "" : Bool) = false := by
      have : (!PyVal.truthy (.str s)) = true := h
      simpa [PyVal.truthy] using this
    refine ⟨[], ?_, by intro x hx; cases hx⟩
    simp only [collectRecords, normSingleton, PyVal.truthy]
    rw [hs]
    rfl
  | num q =>
    have hq : (q ≠ 0 : Bool) = false := by
      have : (!PyVal.truthy (.num q)) = true := h
      simpa [PyVal.truthy] using this
    refine ⟨[], ?_, by intro x hx; cases hx⟩
    simp only [collectRecords, normSingleton, PyVal.truthy]
    rw [hq]
    rfl

lemma cashColl_collect_ok {v : PyVal} (h : cashCollWF v = true) :
    ∃ items, collectRecords v = Except.ok items ∧
      ∀ x ∈ items, ∃ kv, x = PyVal.dict kv ∧ cashTxnWF kv = true := by
  cases v with
  | dict kv =>
    refine ⟨[.dict kv], rfl, ?_⟩
    intro x hx
    rw [List.mem_singleton] at hx
    exact ⟨kv, hx, h⟩
  | list xs =>
    cases xs with
    | nil => exact ⟨[], rfl, by intro x hx; cases hx⟩
    | cons a as =>
      refine ⟨a :: as, rfl, ?_⟩
      intro x hx
      have hall : ∀ y ∈ a :: as,
          (match y with | PyVal.dict kvs => cashTxnWF kvs | _ => false) = true :=
        List.all_eq_true.mp h
      have hx1 := hall x hx
      cases x with
      | dict kv => exact ⟨kv, rfl, hx1⟩
      | none => cases hx1
      | str s => cases hx1
      | num q => cases hx1
      | list l => cases hx1
  | none => cases h
  | num q => cases h
  | str s =>
    have hs : s = "" := by simpa [cashCollWF] using h
    subst hs
    exact ⟨[], rfl, by intro x hx; cases hx⟩

lemma cashColl_iter_ok {v : PyVal} (h : cashCollWF v = true) :
    ∃ items, pyIter (normSingleton v) = Except.ok items ∧
      ∀ x ∈ items, ∃ kv, x = PyVal.dict kv ∧ cashTxnWF kv = true := by
  cases v with
  | dict kv =>
    refine ⟨[.dict kv], rfl, ?_⟩
    intro x hx
    rw [List.mem_singleton] at hx
    exact ⟨kv, hx, h⟩
  | list xs =>
    refine ⟨xs, rfl, ?_⟩
    intro x hx
    have hall : ∀ y ∈ xs,
        (match y with | PyVal.dict kvs => cashTxnWF kvs | _ => false) = true :=
      List.all_eq_true.mp h
    have hx1 := hall x hx
    cases x with
    | dict kv => exact ⟨kv, rfl, hx1⟩
    | none => cases hx1
    | str s => cases hx1
    | num q => cases hx1
    | list l => cases hx1
  | none => cases h
  | num q => cases h
  | str s =>
    have hs : s = "" := by simpa [cashCollWF] using h
    subst hs
    exact ⟨[], rfl, by intro x hx; cases hx⟩

lemma docWF_parts {kvs : List (String × PyVal)} (h : docWF (.dict kvs) = true) :
    sectionWF kvs "Trades" "Lot" (fun v => subCollWF v lotWF) = true ∧
    sectionWF kvs "CashTransactions" "CashTransaction" cashCollWF = true ∧
    wtSectionWF kvs = true ∧
    sectionWF kvs "OpenPositions" "OpenPosition" (fun v => subCollWF v posWF) = true ∧
    sectionWF kvs "CashReport" "CashReportCurrency" (fun v => subCollWF v cashRepWF) = true := by
  rw [docWF] at h
  simp only [Bool.and_eq_true] at h
  obtain ⟨⟨⟨⟨h1, h2⟩, h3⟩, h4⟩, h5⟩ := h
  exact ⟨h1, h2, h3, h4, h5⟩

lemma parse_trades_ok {doc : PyVal} (h : docWF doc = true) :
    exOk (parse_trades doc) = true := by
  cases doc with
  | dict kvs =>
    have hTr := (docWF_parts h).1
    rw [sectionWF] at hTr
    cases hsec : dictGet kvs "Trades" with
    | none => simp [parse_trades, pyGet_dict, hsec, exBind_ok, PyVal.truthy, exPure_def, exOk]
    | some v =>
      rw [hsec] at hTr
      cases v with
      | dict skvs =>
        have hTr2 : subCollWF ((dictGet skvs "Lot").getD (PyVal.list [])) lotWF = true := hTr
        rcases collectRecords_ok hTr2 with ⟨items, hit, hall⟩
        have hrec : ∀ x ∈ items, ∃ y, parseLot x = Except.ok y := by
          intro x hx
          rcases hall x hx with ⟨kv, rfl, hkv⟩
          exact parseLot_ok hkv
        rcases exMapM_all_ok hrec with ⟨rows, hrows⟩
        cases skvs with
        | nil => simp [parse_trades, pyGet_dict, hsec, exBind_ok, PyVal.truthy, exPure_def, exOk]
        | cons a as =>
          simp [parse_trades, pyGet_dict, hsec, exBind_ok, PyVal.truthy, hit, hrows, exOk]
      | none => simp [parse_trades, pyGet_dict, hsec, exBind_ok, PyVal.truthy, exPure_def, exOk]
      | str s =>
        have hs : (!PyVal.truthy (.str s)) = true := hTr
        have hs2 : s = "" := by simpa [PyVal.truthy] using hs
        subst hs2
        simp [parse_trades, pyGet_dict, hsec, exBind_ok, PyVal.truthy, exPure_def, exOk]
      | num q =>
        have hq : (!PyVal.truthy (.num q)) = true := hTr
        have hq2 : q = 0 := by simpa [PyVal.truthy] using hq
        subst hq2
        simp [parse_trades, pyGet_dict, hsec, exBind_ok, PyVal.truthy, exPure_def, exOk]
      | list xs =>
        have hl : (!PyVal.truthy (.list xs)) = true := hTr
        have hl2 : xs = [] := by simpa [PyVal.truthy] using hl
        subst hl2
        simp [parse_trades, pyGet_dict, hsec, exBind_ok, PyVal.truthy, exPure_def, exOk]
  | none => cases h
  | str s => cases h
  | num q => cases h
  | list xs => cases h

lemma parse_open_positions_ok {doc : PyVal} (h : docWF doc = true) :
    exOk (parse_open_positions doc) = true := by
  cases doc with
  | dict kvs =>
    have hOP := (docWF_parts h).2.2.2.1
    rw [sectionWF] at hOP
    cases hsec : dictGet kvs "OpenPositions" with
    | none => simp [parse_open_positions, pyGet_dict, hsec, exBind_ok, PyVal.truthy,
        exPure_def, exOk]
    | some v =>
      rw [hsec] at hOP
      cases v with
      | dict skvs =>
        have hOP2 : subCollWF ((dictGet skvs "OpenPosition").getD (PyVal.list [])) posWF = true := hOP
        rcases collectRecords_ok hOP2 with ⟨items, hit, hall⟩
        have hrec : ∀ x ∈ items, ∃ y, parsePosition x = Except.ok y := by
          intro x hx
          rcases hall x hx with ⟨kv, rfl, hkv⟩
          exact parsePosition_ok hkv
        rcases exMapM_all_ok hrec with ⟨rows, hrows⟩
        cases skvs with
        | nil => simp [parse_open_positions, pyGet_dict, hsec, exBind_ok, PyVal.truthy,
            exPure_def, exOk]
        | cons a as =>
          simp [parse_open_positions, pyGet_dict, hsec, exBind_ok, PyVal.truthy, hit,
            hrows, exOk]
      | none => simp [parse_open_positions, pyGet_dict, hsec, exBind_ok, PyVal.truthy,
          exPure_def, exOk]
      | str s =>
        have hs : (!PyVal.truthy (.str s)) = true := hOP
        have hs2 : s = "" := by simpa [PyVal.truthy] using hs
        subst hs2
        simp [parse_open_positions, pyGet_dict, hsec, exBind_ok, PyVal.truthy, exPure_def, exOk]
      | num q =>
        have hq : (!PyVal.truthy (.num q)) = true := hOP
        have hq2 : q = 0 := by simpa [PyVal.truthy] using hq
        subst hq2
        simp [parse_open_positions, pyGet_dict, hsec, exBind_ok, PyVal.truthy, exPure_def, exOk]
      | list xs =>
        have hl : (!PyVal.truthy (.list xs)) = true := hOP
        have hl2 : xs = [] := by simpa [PyVal.truthy] using hl
        subst hl2
        simp [parse_open_positions, pyGet_dict, hsec, exBind_ok, PyVal.truthy, exPure_def, exOk]
  | none => cases h
  | str s => cases h
  | num q => cases h
  | list xs => cases h

lemma parse_dividends_ok {doc : PyVal} (h : docWF doc = true) :
    exOk (parse_dividends doc) = true := by
  cases doc with
  | dict kvs =>
    have hCT := (docWF_parts h).2.1
    rw [sectionWF] at hCT
    cases hsec : dictGet kvs "CashTransactions" with
    | none => simp [parse_dividends, pyGet_dict, hsec, exBind_ok, PyVal.truthy,
        exPure_def, exOk]
    | some v =>
      rw [hsec] at hCT
      cases v with
      | dict skvs =>
        have hCT2 : cashCollWF ((dictGet skvs "CashTransaction").getD (PyVal.list [])) = true := hCT
        rcases cashColl_collect_ok hCT2 with ⟨items, hit, hall⟩
        have hrec : ∀ x ∈ items, ∃ y, parseDivTxn x = Except.ok y := by
          intro x hx
          rcases hall x hx with ⟨kv, rfl, hkv⟩
          exact parseDivTxn_ok hkv
        rcases exMapM_all_ok hrec with ⟨rows, hrows⟩
        cases skvs with
        | nil => simp [parse_dividends, pyGet_dict, hsec, exBind_ok, PyVal.truthy,
            exPure_def, exOk]
        | cons a as =>
          simp [parse_dividends, pyGet_dict, hsec, exBind_ok, PyVal.truthy, hit, hrows,
            exPure_def, exOk]
      | none => simp [parse_dividends, pyGet_dict, hsec, exBind_ok, PyVal.truthy,
          exPure_def, exOk]
      | str s =>
        have hs : (!PyVal.truthy (.str s)) = true := hCT
        have hs2 : s = "" := by simpa [PyVal.truthy] using hs
        subst hs2
        simp [parse_dividends, pyGet_dict, hsec, exBind_ok, PyVal.truthy, exPure_def, exOk]
      | num q =>
        have hq : (!PyVal.truthy (.num q)) = true := hCT
        have hq2 : q = 0 := by simpa [PyVal.truthy] using hq
        subst hq2
        simp [parse_dividends, pyGet_dict, hsec, exBind_ok, PyVal.truthy, exPure_def, exOk]
      | list xs =>
        have hl : (!PyVal.truthy (.list xs)) = true := hCT
        have hl2 : xs = [] := by simpa [PyVal.truthy] using hl
        subst hl2
        simp [parse_dividends, pyGet_dict, hsec, exBind_ok, PyVal.truthy, exPure_def, exOk]
  | none => cases h
  | str s => cases h
  | num q => cases h
  | list xs => cases h

lemma parse_deposits_withdrawals_ok {doc : PyVal} (h : docWF doc = true) :
    exOk (parse_deposits_withdrawals doc) = true := by
  cases doc with
  | dict kvs =>
    have hCT := (docWF_parts h).2.1
    rw [sectionWF] at hCT
    cases hsec : dictGet kvs "CashTransactions" with
    | none => simp [parse_deposits_withdrawals, pyGet_dict, hsec, exBind_ok, PyVal.truthy,
        exPure_def, exOk]
    | some v =>
      rw [hsec] at hCT
      cases v with
      | dict skvs =>
        have hCT2 : cashCollWF ((dictGet skvs "CashTransaction").getD (PyVal.list [])) = true := hCT
        rcases cashColl_collect_ok hCT2 with ⟨items, hit, hall⟩
        have hrec : ∀ x ∈ items, ∃ y, parseDWTxn x = Except.ok y := by
          intro x hx
          rcases hall x hx with ⟨kv, rfl, hkv⟩
          exact parseDWTxn_ok hkv
        rcases exMapM_all_ok hrec with ⟨rows, hrows⟩
        cases skvs with
        | nil => simp [parse_deposits_withdrawals, pyGet_dict, hsec, exBind_ok,
            PyVal.truthy, exPure_def, exOk]
        | cons a as =>
          simp [parse_deposits_withdrawals, pyGet_dict, hsec, exBind_ok, PyVal.truthy,
            hit, hrows, exPure_def, exOk]
      | none => simp [parse_deposits_withdrawals, pyGet_dict, hsec, exBind_ok,
          PyVal.truthy, exPure_def, exOk]
      | str s =>
        have hs : (!PyVal.truthy (.str s)) = true := hCT
        have hs2 : s = "" := by simpa [PyVal.truthy] using hs
        subst hs2
        simp [parse_deposits_withdrawals, pyGet_dict, hsec, exBind_ok, PyVal.truthy,
          exPure_def, exOk]
      | num q =>
        have hq : (!PyVal.truthy (.num q)) = true := hCT
        have hq2 : q = 0 := by simpa [PyVal.truthy] using hq
        subst hq2
        simp [parse_deposits_withdrawals, pyGet_dict, hsec, exBind_ok, PyVal.truthy,
          exPure_def, exOk]
      | list xs =>
        have hl : (!PyVal.truthy (.list xs)) = true := hCT
        have hl2 : xs = [] := by simpa [PyVal.truthy] using hl
        subst hl2
        simp [parse_deposits_withdrawals, pyGet_dict, hsec, exBind_ok, PyVal.truthy,
          exPure_def, exOk]
  | none => cases h
  | str s => cases h
  | num q => cases h
  | list xs => cases h

lemma findBaseSummary_ok {items : List PyVal}
    (hall : ∀ x ∈ items, ∃ kv, x = PyVal.dict kv ∧ cashRepWF kv = true) :
    ∃ res, findBaseSummary items = Except.ok res ∧
      ∀ r, res = some r → r ∈ items := by
  induction items with
  | nil => exact ⟨Option.none, rfl, by intro r hr; cases hr⟩
  | cons a rest ih =>
    rcases hall a (List.mem_cons_self a rest) with ⟨kv, rfl, _⟩
    rcases ih (fun x hx => hall x (List.mem_cons_of_mem _ hx)) with ⟨res, hres, hmem⟩
    simp only [findBaseSummary, pyGet_dict, exBind_ok]
    split
    · exact ⟨some (.dict kv), rfl, by
        intro r hr; injection hr with hr; subst hr; exact List.mem_cons_self _ _⟩
    · exact ⟨res, hres, fun r hr => List.mem_cons_of_mem _ (hmem r hr)⟩

lemma parse_cash_report_ok {doc : PyVal} (h : docWF doc = true) :
    exOk (parse_cash_report doc) = true := by
  cases doc with
  | dict kvs =>
    have hCR := (docWF_parts h).2.2.2.2
    rw [sectionWF] at hCR
    cases hsec : dictGet kvs "CashReport" with
    | none => simp [parse_cash_report, pyGet_dict, hsec, exBind_ok, PyVal.truthy,
        exPure_def, exOk]
    | some v =>
      rw [hsec] at hCR
      cases v with
      | dict skvs =>
        have hCR2 : subCollWF ((dictGet skvs "CashReportCurrency").getD (PyVal.list []))
            cashRepWF = true := hCR
        rcases collectRecords_ok hCR2 with ⟨items, hit, hall⟩
        rcases findBaseSummary_ok hall with ⟨res, hres, hmem⟩
        have hbuild : ∀ cd ∈ items, exOk (buildCashReport cd) = true := by
          intro cd hcd
          rcases hall cd hcd with ⟨ckv, rfl, hckv⟩
          rcases fieldStr_ok hckv with ⟨cur, hcur⟩
          by_cases hck : ckv.isEmpty
          · simp [buildCashReport, PyVal.truthy, hck, exPure_def, exOk]
          · simp [buildCashReport, PyVal.truthy, hck, pyGet_dict, exBind_ok, hcur,
              exPure_def, exOk]
        cases skvs with
        | nil => simp [parse_cash_report, pyGet_dict, hsec, exBind_ok, PyVal.truthy,
            exPure_def, exOk]
        | cons a as =>
          cases res with
          | some r =>
            have hr := hmem r rfl
            simp [parse_cash_report, pyGet_dict, hsec, exBind_ok, PyVal.truthy, hit,
              hres, hbuild r hr]
          | none =>
            cases hitems : items with
            | nil =>
              subst hitems
              simp [parse_cash_report, pyGet_dict, hsec, exBind_ok, PyVal.truthy, hit,
                hres, exPure_def, exOk]
            | cons i is =>
              subst hitems
              have hi : i ∈ i :: is := List.mem_cons_self i is
              simp [parse_cash_report, pyGet_dict, hsec, exBind_ok, PyVal.truthy,
                hit, hres, exPure_def]
              exact hbuild i hi
      | none => simp [parse_cash_report, pyGet_dict, hsec, exBind_ok, PyVal.truthy,
          exPure_def, exOk]
      | str s =>
        have hs : (!PyVal.truthy (.str s)) = true := hCR
        have hs2 : s = "" := by simpa [PyVal.truthy] using hs
        subst hs2
        simp [parse_cash_report, pyGet_dict, hsec, exBind_ok, PyVal.truthy, exPure_def, exOk]
      | num q =>
        have hq : (!PyVal.truthy (.num q)) = true := hCR
        have hq2 : q = 0 := by simpa [PyVal.truthy] using hq
        subst hq2
        simp [parse_cash_report, pyGet_dict, hsec, exBind_ok, PyVal.truthy, exPure_def, exOk]
      | list xs =>
        have hl : (!PyVal.truthy (.list xs)) = true := hCR
        have hl2 : xs = [] := by simpa [PyVal.truthy] using hl
        subst hl2
        simp [parse_cash_report, pyGet_dict, hsec, exBind_ok, PyVal.truthy, exPure_def, exOk]
  | none => cases h
  | str s => cases h
  | num q => cases h
  | list xs => cases h

lemma wtFallback_ok {kvs : List (String × PyVal)}
    (hCT : sectionWF kvs "CashTransactions" "CashTransaction" cashCollWF = true) :
    exOk (wtFallback (.dict kvs)) = true := by
  rw [sectionWF] at hCT
  cases hsec : dictGet kvs "CashTransactions" with
  | none => simp [wtFallback, pyGet_dict, hsec, exBind_ok, PyVal.truthy, exPure_def, exOk]
  | some v =>
    rw [hsec] at hCT
    cases v with
    | dict skvs =>
      have hCT2 : cashCollWF ((dictGet skvs "CashTransaction").getD (PyVal.list [])) = true := hCT
      rcases cashColl_iter_ok hCT2 with ⟨items, hit, hall⟩
      have hrec : ∀ x ∈ items, ∃ y, parseTaxTxnCash x = Except.ok y := by
        intro x hx
        rcases hall x hx with ⟨kv, rfl, hkv⟩
        exact parseTaxTxnCash_ok hkv
      rcases exMapM_all_ok hrec with ⟨rows, hrows⟩
      cases skvs with
      | nil => simp [wtFallback, pyGet_dict, hsec, exBind_ok, PyVal.truthy, exPure_def, exOk]
      | cons a as =>
        simp [wtFallback, pyGet_dict, hsec, exBind_ok, PyVal.truthy, hit, hrows,
          exPure_def, exOk]
    | none => simp [wtFallback, pyGet_dict, hsec, exBind_ok, PyVal.truthy, exPure_def, exOk]
    | str s =>
      have hs : (!PyVal.truthy (.str s)) = true := hCT
      have hs2 : s = "" := by simpa [PyVal.truthy] using hs
      subst hs2
      simp [wtFallback, pyGet_dict, hsec, exBind_ok, PyVal.truthy, exPure_def, exOk]
    | num q =>
      have hq : (!PyVal.truthy (.num q)) = true := hCT
      have hq2 : q = 0 := by simpa [PyVal.truthy] using hq
      subst hq2
      simp [wtFallback, pyGet_dict, hsec, exBind_ok, PyVal.truthy, exPure_def, exOk]
    | list xs =>
      have hl : (!PyVal.truthy (.list xs)) = true := hCT
      have hl2 : xs = [] := by simpa [PyVal.truthy] using hl
      subst hl2
      simp [wtFallback, pyGet_dict, hsec, exBind_ok, PyVal.truthy, exPure_def, exOk]

lemma parse_withholding_tax_ok {doc : PyVal} (h : docWF doc = true) :
    exOk (parse_withholding_tax doc) = true := by
  cases doc with
  | dict kvs =>
    have hWT := (docWF_parts h).2.2.1
    have hCT := (docWF_parts h).2.1
    rw [wtSectionWF] at hWT
    cases hwt : dictGet kvs "WithholdingTax" with
    | none =>
      simp [parse_withholding_tax, pyGet_dict, hwt, exBind_ok, dictGet, PyVal.truthy,
        exPure_def]
      exact wtFallback_ok hCT
    | some v =>
      rw [hwt] at hWT
      cases v with
      | dict skvs =>
        have hWT2 : subCollWF ((dictGet skvs "Tax").getD (PyVal.list [])) taxRecWF = true := hWT
        cases ht0 : (dictGet skvs "Tax").getD (PyVal.list []) with
        | dict tkv =>
          rw [ht0] at hWT2
          have htk : taxRecWF tkv = true := hWT2
          rcases parseTaxRecord_ok htk with ⟨row, hrow⟩
          cases tkv with
          | nil =>
            simp [parse_withholding_tax, pyGet_dict, hwt, exBind_ok, ht0, PyVal.truthy,
              exPure_def]
            exact wtFallback_ok hCT
          | cons b bs =>
            simp [parse_withholding_tax, pyGet_dict, hwt, exBind_ok, ht0, PyVal.truthy,
              normSingleton, pyIter, exMapM, hrow, exPure_def, exOk]
        | list xs =>
          rw [ht0] at hWT2
          have hrec : ∀ x ∈ xs, ∃ y, parseTaxRecord x = Except.ok y := by
            intro x hx
            have hall : ∀ y ∈ xs,
                (match y with | PyVal.dict kvs => taxRecWF kvs | _ => false) = true :=
              List.all_eq_true.mp hWT2
            have hx1 := hall x hx
            cases x with
            | dict kv => exact parseTaxRecord_ok hx1
            | none => cases hx1
            | str s => cases hx1
            | num q => cases hx1
            | list l => cases hx1
          rcases exMapM_all_ok hrec with ⟨rows, hrows⟩
          cases xs with
          | nil =>
            simp [parse_withholding_tax, pyGet_dict, hwt, exBind_ok, ht0, PyVal.truthy,
              exPure_def]
            exact wtFallback_ok hCT
          | cons b bs =>
            simp [parse_withholding_tax, pyGet_dict, hwt, exBind_ok, ht0, PyVal.truthy,
              normSingleton, pyIter, hrows, exPure_def, exOk]
        | none =>
          simp [parse_withholding_tax, pyGet_dict, hwt, exBind_ok, ht0, PyVal.truthy,
            exPure_def]
          exact wtFallback_ok hCT
        | str s =>
          rw [ht0] at hWT2
          have hs : (!PyVal.truthy (.str s)) = true := hWT2
          have hs2 : s = "" := by simpa [PyVal.truthy] using hs
          subst hs2
          simp [parse_withholding_tax, pyGet_dict, hwt, exBind_ok, ht0, PyVal.truthy,
            exPure_def]
          exact wtFallback_ok hCT
        | num q =>
          rw [ht0] at hWT2
          have hq : (!PyVal.truthy (.num q)) = true := hWT2
          have hq2 : q = 0 := by simpa [PyVal.truthy] using hq
          subst hq2
          simp [parse_withholding_tax, pyGet_dict, hwt, exBind_ok, ht0, PyVal.truthy,
            exPure_def]
          exact wtFallback_ok hCT
      | none => cases hWT
      | str s => cases hWT
      | num q => cases hWT
      | list xs => cases hWT
  | none => cases h
  | str s => cases h
  | num q => cases h
  | list xs => cases h

/-- C4 counterexample: a document whose "WithholdingTax" section is present
but `null` makes `parse_withholding_tax` raise (`None.get` is an
`AttributeError` in Python), so the parse functions do not tolerate every
malformed sub-structure. -/
theorem parse_never_raises_counterexample :
    parse_withholding_tax (.dict [("WithholdingTax", PyVal.none)]) =
      Except.error PyErr.attrError := rfl

/-- C4 (amended): on well-formed statement documents — each section absent,
falsy or a mapping, each sub-collection a record mapping, a sequence of
record mappings or absent/empty, and textual fields textual — no parse
function raises; a missing section or empty collection degrades to the empty
table, and a scalar failing numeric coercion (null, the empty string, or a
non-numeric string) degrades to the default value. -/
theorem parse_functions_total (doc : PyVal) (h : docWF doc = true) :
    exOk (parse_trades doc) = true ∧
    exOk (parse_dividends doc) = true ∧
    exOk (parse_withholding_tax doc) = true ∧
    exOk (parse_deposits_withdrawals doc) = true ∧
    exOk (parse_open_positions doc) = true ∧
    exOk (parse_cash_report doc) = true ∧
    (parse_trades (.dict []) = Except.ok [] ∧
     parse_dividends (.dict []) = Except.ok [] ∧
     parse_withholding_tax (.dict []) = Except.ok [] ∧
     parse_deposits_withdrawals (.dict []) = Except.ok [] ∧
     parse_open_positions (.dict []) = Except.ok [] ∧
     parse_cash_report (.dict []) = Except.ok Option.none) ∧
    (∀ d : ℚ, safe_float PyVal.none d = d ∧ safe_float (.str "") d = d ∧
      safe_float (.str "not-a-number") d = d) :=
  ⟨parse_trades_ok h, parse_dividends_ok h, parse_withholding_tax_ok h,
   parse_deposits_withdrawals_ok h, parse_open_positions_ok h, parse_cash_report_ok h,
   ⟨rfl, rfl, rfl, rfl, rfl, rfl⟩,
   fun d => ⟨rfl, rfl, by simp [safe_float, parseDecimal, parseUnsignedDec, allDigits]⟩⟩

/-- Witness for C4 (amended) at a concrete well-formed document. -/
theorem parse_functions_total_witness :
    docWF (PyVal.dict [("Trades", PyVal.dict [("Lot", PyVal.dict
      [("@tradeDate", PyVal.str "20250101"), ("@quantity", PyVal.str "-10")])])]) = true ∧
    exOk (parse_trades (PyVal.dict [("Trades", PyVal.dict [("Lot", PyVal.dict
      [("@tradeDate", PyVal.str "20250101"), ("@quantity", PyVal.str "-10")])])])) = true :=
  ⟨by decide, (parse_functions_total (PyVal.dict [("Trades", PyVal.dict [("Lot", PyVal.dict
      [("@tradeDate", PyVal.str "20250101"), ("@quantity", PyVal.str "-10")])])])
    (by decide)).1⟩
